import Mathlib

set_option linter.unusedVariables false

/-!
Shallow embedding of the NGINX reconciliation and reload orchestrator
(`fullReconfiguration`, `updateConfiguration`, `configFromTemplate` in the
`dataplane` package) together with proofs about the claims of the
natural-language specification.

Collaborators that live outside the given sources (the certificate store,
the template renderer, the dry-run validator, the dynamic-push endpoint,
the metrics and event sinks) are modelled as an environment record `Env`
holding the result each call would return; every call made by the
orchestrator is additionally recorded in an `Action` trace, so that claims
about "no file write", "no reload signal", "no collaborator call" become
statements about trace membership.
-/

namespace IngressNginx

/-- Embeds `ingress.SSLCert`: only the fields read by the reconfiguration code
(`Name` and the PEM content hash `PemSHA`) are modelled. -/
structure SSLCert where
  Name : String
  PemSHA : String
deriving DecidableEq, Repr

/-- Embeds `config.Configuration` (the configmap-derived settings object): only the
`Checksum` field (config.go line 723) is read by `fullReconfiguration`. -/
structure ConfigmapConfiguration where
  Checksum : String
deriving DecidableEq, Repr

/-- Embeds `config.TemplateConfig` (config.go lines 950-983): the snapshot handed to
`syncIngress`/`fullReconfiguration`.  Only the fields the orchestrator reads
are modelled; backend/server/L4 descriptors are opaque identifiers since the
orchestrator never inspects their fields (it only hands them to external
collaborators). `GeneratedTime` is the generation timestamp (`int64`).
`DHParamContent` is a nilable `[]byte`, hence an `Option`. -/
structure TemplateConfig where
  DefaultSSLCertificate : Option SSLCert
  Backends : List String
  Servers : List String
  TCPBackends : List String
  UDPBackends : List String
  Cfg : ConfigmapConfiguration
  GeneratedTime : Int
  DHParamFile : String
  DHParamContent : Option (List Nat)
deriving DecidableEq, Repr

/-- Embeds `ingress.Configuration` as populated by `configFromTemplate`: the four
structural lists, plus `ConfigurationChecksum` (zero value `""`, set only on
the reload branch before the dynamic push). -/
structure IngressConfiguration where
  Backends : List String
  Servers : List String
  TCPEndpoints : List String
  UDPEndpoints : List String
  ConfigurationChecksum : String
deriving DecidableEq, Repr

/-- The zero value `ingress.Configuration{}` used for the first-sync check. -/
def emptyConfiguration : IngressConfiguration :=
  { Backends := [], Servers := [], TCPEndpoints := [], UDPEndpoints := []
    ConfigurationChecksum := "" }

/-- Embeds `configFromTemplate` (modsecurity.go lines 429-440): a nil template
pointer yields the empty configuration, otherwise the four structural lists
are copied over. -/
def configFromTemplate : Option TemplateConfig → IngressConfiguration
  | none => emptyConfiguration
  | some tmpl =>
    { Backends := tmpl.Backends
      Servers := tmpl.Servers
      TCPEndpoints := tmpl.TCPBackends
      UDPEndpoints := tmpl.UDPBackends
      ConfigurationChecksum := "" }

/-- One observable call made by the orchestrator to a collaborator or to the
filesystem/process layer.  `writeLiveConfig` is the `os.WriteFile` on the
live configuration path `cfgPath`; `execReload` is `nginx -s reload`;
`writeTempFile`/`execDiff`/`removeTempFile` belong to the verbose-logging
diff block and never touch the live path (`os.CreateTemp` yields a fresh
name distinct from `cfgPath`). -/
inductive Action where
  | lockAcquire
  | lockRelease
  | setSSLExpireTime
  | setSSLInfo
  | storeSSLCert (name : String)
  | writeDHParam (path : String)
  | createOpentracingCfg
  | writeTempFile
  | execDiff
  | removeTempFile
  | writeLiveConfig (content : String)
  | execReload
  | eventMessage (etype : String) (reason : String) (detail : String)
  | incReloadErrorCount
  | incReloadCount
  | configSuccess (hash : Nat) (success : Bool)
  | configureDynamically (attempt : Nat)
  | removeMetrics
  | sleep
deriving DecidableEq, Repr

/-- Results the external collaborators would return during one
reconciliation.  `pushErr k` is the error (none on acceptance) of the
`k`-th `ConfigureDynamically` attempt, 0-based.  `testTemplateOf` maps the
rendered artifact content to the dry-run validation result. -/
structure Env where
  storeSSLCertErr : Option String
  dhParamErr : Option String
  isDynamicEnough : Bool
  hashVal : Nat
  opentracingErr : Option String
  renderResult : Except String String
  testTemplateOf : String → Option String
  verbose : Bool
  createTempErr : Option String
  writeTempErr : Option String
  writeLiveErr : Option String
  reloadErr : Option (String × String)
  pushErr : Nat → Option String

/-- The mutable state of the `NGINXConfigurer` that the embedded code reads
or writes: the last-applied template configuration (a nilable pointer, hence
`Option`), the content of the live configuration artifact at `cfgPath`, and
the static retry setting `n.cfg.DynamicConfigurationRetries`. -/
structure ConfigurerState where
  templateConfig : Option TemplateConfig
  liveConfig : String
  dynamicConfigurationRetries : Nat
deriving DecidableEq, Repr

/-- Embeds `ssl.FakeCertificateName`, the fixed placeholder logical name used when
the default certificate carries no name (external constant). -/
def fakeCertificateName : String := "fake-certificate"

/-- Result of `updateConfiguration`: the returned error, the configurer
state after the call, and the trace of collaborator calls made. -/
structure UpdateResult where
  err : Option String
  state : ConfigurerState
  trace : List Action
deriving Repr

/-- The verbose-logging diff block of `updateConfiguration` (lines 463-492):
runs only when V(2) logging is enabled and the rendered content differs from
the live file; `os.CreateTemp` or the temp `os.WriteFile` failing aborts
`updateConfiguration` with that error; the `diff` invocation's errors are
ignored. -/
def debugDiffTrace (n : ConfigurerState) (content : String) (env : Env) :
    Option String × List Action :=
  if env.verbose ∧ n.liveConfig ≠ content then
    match env.createTempErr with
    | some e => (some e, [])
    | none =>
      match env.writeTempErr with
      | some e => (some e, [.writeTempFile])
      | none => (none, [.writeTempFile, .execDiff, .removeTempFile])
  else (none, [])

/-- Embeds `updateConfiguration` (modsecurity.go lines 442-505): opentracing config,
template render (`n.t.Write`), dry-run validation (`n.testTemplate`),
verbose diff block, write of the live artifact, graceful reload command.
The assignments to `cfg.Cfg.SSLDHParam`, `cfg.BacklogSize`, `cfg.Cfg.Resolver`
and `cfg.Cfg.DisableIpv6DNS` touch only fields outside the modelled fragment
(they feed the renderer, which is the `renderResult` oracle here).
A failed `os.WriteFile` on the live path is modelled as leaving the previous
content in place. On reload failure the returned error is the command error
followed by the combined output, as in `fmt.Errorf("%v\n%v", err, o)`. -/
def updateConfiguration (n : ConfigurerState) (cfg : TemplateConfig) (env : Env) :
    UpdateResult :=
  match env.opentracingErr with
  | some e => { err := some e, state := n, trace := [.createOpentracingCfg] }
  | none =>
    match env.renderResult with
    | .error e => { err := some e, state := n, trace := [.createOpentracingCfg] }
    | .ok content =>
      match env.testTemplateOf content with
      | some e => { err := some e, state := n, trace := [.createOpentracingCfg] }
      | none =>
        match (debugDiffTrace n content env).fst with
        | some e =>
          { err := some e, state := n
            trace := .createOpentracingCfg :: (debugDiffTrace n content env).snd }
        | none =>
          match env.writeLiveErr with
          | some e =>
            { err := some e, state := n
              trace := .createOpentracingCfg ::
                ((debugDiffTrace n content env).snd ++ [.writeLiveConfig content]) }
          | none =>
            match env.reloadErr with
            | some (e, o) =>
              { err := some (e ++ "\n" ++ o)
                state := { n with liveConfig := content }
                trace := .createOpentracingCfg ::
                  ((debugDiffTrace n content env).snd ++
                    [.writeLiveConfig content, .execReload]) }
            | none =>
              { err := none, state := { n with liveConfig := content }
                trace := .createOpentracingCfg ::
                  ((debugDiffTrace n content env).snd ++
                    [.writeLiveConfig content, .execReload]) }

/-- Embeds `wait.Backoff` with the fields set at modsecurity.go lines 389-394.
Durations are exact rationals (seconds). -/
structure Backoff where
  Steps : Nat
  Duration : Rat
  Factor : Rat
  Jitter : Rat
deriving DecidableEq, Repr

/-- The retry policy built by `fullReconfiguration`:
`Steps: 1 + n.cfg.DynamicConfigurationRetries, Duration: time.Second,
Factor: 1.3, Jitter: 0.1`. -/
def mkRetryBackoff (retries : Nat) : Backoff :=
  { Steps := 1 + retries, Duration := 1, Factor := 13/10, Jitter := 1/10 }

/-- Embeds `wait.ExponentialBackoff` from k8s.io/apimachinery (vendored library,
not part of the given sources): calls `cond` while steps remain; a `(true, _)`
or an error result is returned immediately; when the step budget is exhausted
it returns `ErrWaitTimeout`.  The sleep between attempts has no functional
effect and is not modelled.  The condition is state-passing to mirror the
closure's captured mutable variables. -/
def exponentialBackoff {σ : Type} :
    Nat → (σ → (Bool × Option String) × σ) → σ → Option String × σ
  | 0, _, s => (some "timed out waiting for the condition", s)
  | steps + 1, cond, s =>
    let r := cond s
    if r.fst.fst || (r.fst.snd).isSome then (r.fst.snd, r.snd)
    else exponentialBackoff steps cond r.snd

/-- The retry closure at modsecurity.go lines 397-410, with its captured
mutable `retriesRemaining` and the index of the next attempt as explicit
state: on acceptance return done; on failure decrement `retriesRemaining`,
retry while it stays positive, otherwise surface the error. -/
def pushCondition (env : Env) :
    Nat × Nat → (Bool × Option String) × (Nat × Nat)
  | (rr, k) =>
    match env.pushErr k with
    | none => ((true, none), (rr, k + 1))
    | some e =>
      let rr' := rr - 1
      if 0 < rr' then ((false, none), (rr', k + 1))
      else ((false, some e), (rr', k + 1))

/-- The dynamic-push retry loop of `fullReconfiguration`: the final error
(none on success) and the number of `ConfigureDynamically` attempts made. -/
def dynamicPushLoop (retries : Nat) (env : Env) : Option String × Nat :=
  let b := mkRetryBackoff retries
  let r := exponentialBackoff b.Steps (pushCondition env) (b.Steps, 0)
  (r.fst, r.snd.snd)

/-- Result of one `fullReconfiguration` call: final configurer state, trace
of collaborator calls, and whether the call panicked (nil-pointer fault). -/
structure ReconcileResult where
  state : ConfigurerState
  trace : List Action
  panicked : Bool
deriving Repr

/-- The guard at modsecurity.go lines 326-327: a default certificate is
stored iff the new snapshot carries one and the stored snapshot has none or
a different PEM hash. -/
def defaultCertNeedsWrite (stored cfg : TemplateConfig) : Bool :=
  match cfg.DefaultSSLCertificate with
  | none => false
  | some c =>
    match stored.DefaultSSLCertificate with
    | none => true
    | some oc => decide (oc.PemSHA ≠ c.PemSHA)

/-- The logical name under which the default certificate is stored
(lines 328-331): the certificate's name, or the fixed placeholder when
unnamed. -/
def defaultCertStoreName (cfg : TemplateConfig) : String :=
  match cfg.DefaultSSLCertificate with
  | none => fakeCertificateName
  | some c => if c.Name = "" then fakeCertificateName else c.Name

/-- Final stage of `fullReconfiguration` (lines 381-424): first-sync settle
delay, dynamic push with bounded retries, and on overall success the
removed-metrics cleanup and the update of the last-applied snapshot.  On
push failure the function returns early: the state keeps whatever the reload
branch wrote but the last-applied snapshot is NOT updated.  Each push
attempt is one `ConfigureDynamically` call, recorded in order. -/
def dynamicStage (n : ConfigurerState) (cfg : TemplateConfig) (env : Env)
    (stored : TemplateConfig) (acts : List Action) : ReconcileResult :=
  match dynamicPushLoop n.dynamicConfigurationRetries env with
  | (some e, attempts) =>
    { state := n
      trace := (if configFromTemplate (some stored) = emptyConfiguration
          then acts ++ [Action.sleep] else acts) ++
        (List.range attempts).map Action.configureDynamically ++
        [.eventMessage "Error" "RELOAD"
          ("Unexpected failure reconfiguring NGINX:\n" ++ e)]
      panicked := false }
  | (none, attempts) =>
    { state := { n with templateConfig := some cfg }
      trace := (if configFromTemplate (some stored) = emptyConfiguration
          then acts ++ [Action.sleep] else acts) ++
        (List.range attempts).map Action.configureDynamically ++
        [.removeMetrics]
      panicked := false }

/-- Stage of `fullReconfiguration` after certificate and DH-parameter sync
(from line 346): configmap-checksum delta, reload branch with
`updateConfiguration` and its metric/event reporting, then the dynamic
stage.  `stored` is the dereferenced `n.templateConfig` (non-nil on this
path, so the source's nil-guard around the checksum comparison is
satisfied). -/
def reloadStage (n : ConfigurerState) (cfg : TemplateConfig) (env : Env)
    (stored : TemplateConfig) (acts : List Action) : ReconcileResult :=
  -- configMapChange (lines 346-353): the source guards the comparison with
  -- a nil check on n.templateConfig, which holds trivially here because
  -- `stored` is the dereferenced pointer.
  if stored.Cfg.Checksum ≠ cfg.Cfg.Checksum ∨ env.isDynamicEnough = false then
    match updateConfiguration n cfg env with
    | { err := some e, state := st, trace := tr } =>
      { state := st
        trace := acts ++ tr ++
          [.incReloadErrorCount, .configSuccess env.hashVal false,
           .eventMessage "Warning" "RELOAD" ("Error reloading NGINX: " ++ e)]
        panicked := false }
    | { err := none, state := st, trace := tr } =>
      dynamicStage st cfg env stored
        (acts ++ tr ++
          [.configSuccess env.hashVal true, .incReloadCount,
           .eventMessage "Normal" "RELOAD"
             "NGINX reload triggered due to a change in configuration"])
  else dynamicStage n cfg env stored acts

/-- DH-parameter sync (lines 339-344): attempted only when both a file path
and non-nil content are present; a write failure aborts. -/
def afterCertStage (n : ConfigurerState) (cfg : TemplateConfig) (env : Env)
    (stored : TemplateConfig) (acts : List Action) : ReconcileResult :=
  if cfg.DHParamFile ≠ "" ∧ cfg.DHParamContent ≠ none then
    match env.dhParamErr with
    | some _ =>
      { state := n, trace := acts ++ [Action.writeDHParam cfg.DHParamFile]
        panicked := false }
    | none =>
      reloadStage n cfg env stored (acts ++ [Action.writeDHParam cfg.DHParamFile])
  else reloadStage n cfg env stored acts

/-- The body of `fullReconfiguration` between `Lock` and the deferred
`Unlock` (modsecurity.go lines 311-424): SSL metrics, staleness check (which
dereferences `n.templateConfig` unconditionally — a nil stored reference
panics here), default-certificate sync, DH-parameter sync, then
`reloadStage`. -/
def fullReconfigurationBody (n : ConfigurerState) (cfg : TemplateConfig)
    (env : Env) : ReconcileResult :=
  match n.templateConfig with
  | none =>
    { state := n, trace := [.setSSLExpireTime, .setSSLInfo], panicked := true }
  | some stored =>
    if stored.GeneratedTime ≥ cfg.GeneratedTime then
      { state := n, trace := [.setSSLExpireTime, .setSSLInfo], panicked := false }
    else if defaultCertNeedsWrite stored cfg then
      match env.storeSSLCertErr with
      | some _ =>
        { state := n
          trace := [.setSSLExpireTime, .setSSLInfo,
            Action.storeSSLCert (defaultCertStoreName cfg)]
          panicked := false }
      | none =>
        afterCertStage n cfg env stored
          [.setSSLExpireTime, .setSSLInfo,
           Action.storeSSLCert (defaultCertStoreName cfg)]
    else afterCertStage n cfg env stored [.setSSLExpireTime, .setSSLInfo]

/-- Embeds `fullReconfiguration` (modsecurity.go lines 306-425): takes the
serialization lock, runs the body, and the deferred `Unlock` runs on every
exit path, the panicking one included. -/
def fullReconfiguration (n : ConfigurerState) (cfg : TemplateConfig)
    (env : Env) : ReconcileResult :=
  { state := (fullReconfigurationBody n cfg env).state
    trace := Action.lockAcquire ::
      ((fullReconfigurationBody n cfg env).trace ++ [Action.lockRelease])
    panicked := (fullReconfigurationBody n cfg env).panicked }

/-- Embeds `syncIngress` (lines 302-304), which just delegates. -/
def syncIngress (n : ConfigurerState) (cfg : TemplateConfig) (env : Env) :
    ReconcileResult :=
  fullReconfiguration n cfg env

/-! ### Concrete sample inputs used by witnesses and counterexamples -/

/-- Environment in which every collaborator call succeeds. -/
def benignEnv : Env :=
  { storeSSLCertErr := none, dhParamErr := none, isDynamicEnough := true
    hashVal := 7, opentracingErr := none
    renderResult := .ok "rendered-config"
    testTemplateOf := fun _ => none, verbose := false, createTempErr := none
    writeTempErr := none, writeLiveErr := none, reloadErr := none
    pushErr := fun _ => none }

/-- Environment whose dry-run validation rejects every rendered artifact. -/
def rejectEnv : Env :=
  { benignEnv with testTemplateOf := fun _ => some "unknown directive" }

/-- Environment in which storing the default certificate fails. -/
def certFailEnv : Env :=
  { benignEnv with storeSSLCertErr := some "permission denied" }

/-- Environment in which the graceful-reload command fails. -/
def reloadFailEnv : Env :=
  { benignEnv with reloadErr := some ("exit status 1", "nginx: [emerg] oops") }

/-- Environment in which every dynamic-push attempt is refused. -/
def pushFailEnv : Env :=
  { benignEnv with pushErr := fun _ => some "connection refused" }

/-- A last-applied snapshot with generation 5. -/
def baseTemplate : TemplateConfig :=
  { DefaultSSLCertificate := none, Backends := ["backend-a"]
    Servers := ["server-a"], TCPBackends := [], UDPBackends := []
    Cfg := { Checksum := "ck-1" }, GeneratedTime := 5
    DHParamFile := "", DHParamContent := none }

/-- Orchestrator state holding `baseTemplate` as last-applied. -/
def baseState : ConfigurerState :=
  { templateConfig := some baseTemplate, liveConfig := "live-config"
    dynamicConfigurationRetries := 2 }

/-- Orchestrator state whose stored template reference is nil. -/
def nilState : ConfigurerState :=
  { templateConfig := none, liveConfig := "live-config"
    dynamicConfigurationRetries := 2 }

/-- A snapshot whose generation equals the last-applied one (stale). -/
def staleSnapshot : TemplateConfig := { baseTemplate with GeneratedTime := 5 }

/-- A fresh snapshot with the same configmap checksum as `baseTemplate`. -/
def freshSameCk : TemplateConfig := { baseTemplate with GeneratedTime := 6 }

/-- A fresh snapshot whose configmap checksum changed (reload required). -/
def freshNewCk : TemplateConfig :=
  { baseTemplate with GeneratedTime := 6, Cfg := { Checksum := "ck-2" } }

/-- A fresh snapshot carrying a default certificate the stored snapshot
lacks. -/
def certSnapshot : TemplateConfig :=
  { baseTemplate with
    GeneratedTime := 6,
    DefaultSSLCertificate := some { Name := "default-cert", PemSHA := "pem-sha-b" } }

/-! ### Two-caller lock model

`fullReconfiguration` serializes callers through `n.configureLock`
(a `sync.Mutex`).  The model below runs two callers, each executing its
`fullReconfiguration` action trace, under an interleaving semantics in which
`lockAcquire` is enabled only while the mutex is free and `lockRelease`
frees it; every other action is unconstrained.  Serialization of the two
callers is then a theorem about the traces produced by the embedding, not an
assumption of the model. -/

/-- A list of actions that never touches the lock. -/
def lockFree (l : List Action) : Prop :=
  ∀ a ∈ l, a ≠ Action.lockAcquire ∧ a ≠ Action.lockRelease

/-- A caller that has not run yet: its whole trace is still pending, and the
trace is an acquire, a lock-free body, and a final release. -/
def notStarted (l : List Action) : Prop :=
  ∃ mid, l = Action.lockAcquire :: (mid ++ [Action.lockRelease]) ∧ lockFree mid

/-- Shared state of the two-caller system: the mutex holder and each
caller's remaining actions. -/
structure LockSys where
  holder : Option Bool
  prog : Bool → List Action

/-- Replace caller `i`'s remaining actions. -/
def setProg (p : Bool → List Action) (i : Bool) (l : List Action) :
    Bool → List Action :=
  fun j => if j = i then l else p j

/-- One interleaving step: caller `i` performs its next action.  Acquiring
requires the mutex to be free; releasing requires holding it (`sync.Mutex`
panics on unlocking an unlocked mutex, and the embedded code only unlocks
what it locked); any other action is always enabled. -/
inductive LockStep : LockSys → Bool × Action → LockSys → Prop where
  | acquire (s : LockSys) (i : Bool) (rest : List Action)
      (hp : s.prog i = Action.lockAcquire :: rest) (hh : s.holder = none) :
      LockStep s (i, Action.lockAcquire) ⟨some i, setProg s.prog i rest⟩
  | release (s : LockSys) (i : Bool) (rest : List Action)
      (hp : s.prog i = Action.lockRelease :: rest) (hh : s.holder = some i) :
      LockStep s (i, Action.lockRelease) ⟨none, setProg s.prog i rest⟩
  | plain (s : LockSys) (i : Bool) (a : Action) (rest : List Action)
      (hp : s.prog i = a :: rest) (ha : a ≠ Action.lockAcquire)
      (hr : a ≠ Action.lockRelease) :
      LockStep s (i, a) ⟨s.holder, setProg s.prog i rest⟩

/-- A finite admissible interleaving, recording the sequence of
(caller, action) events. -/
inductive Exec : LockSys → List (Bool × Action) → LockSys → Prop where
  | nil {s : LockSys} : Exec s [] s
  | cons {s s' s'' : LockSys} {ev : Bool × Action} {evs : List (Bool × Action)} :
      LockStep s ev s' → Exec s' evs s'' → Exec s (ev :: evs) s''

/-- Tag every action of a trace with the caller that performed it. -/
def tagged (i : Bool) (l : List Action) : List (Bool × Action) :=
  l.map (fun a => (i, a))

/-! ### Action classification

Predicates used to delimit which calls each phase of the orchestrator can
make; they power the claims about absent side effects. -/

/-- Actions emitted before `reloadStage`: the SSL metrics calls, the
certificate store call, the DH-parameter write. -/
def preAction : Action → Bool
  | .setSSLExpireTime => true
  | .setSSLInfo => true
  | .storeSSLCert _ => true
  | .writeDHParam _ => true
  | _ => false

/-- Actions `updateConfiguration` can emit. -/
def updAction : Action → Bool
  | .createOpentracingCfg => true
  | .writeTempFile => true
  | .execDiff => true
  | .removeTempFile => true
  | .writeLiveConfig _ => true
  | .execReload => true
  | _ => false

/-- Metric/event reporting actions of the reload branch. -/
def reportAction : Action → Bool
  | .incReloadErrorCount => true
  | .incReloadCount => true
  | .configSuccess _ _ => true
  | .eventMessage _ _ _ => true
  | _ => false

/-- Actions the dynamic stage can emit. -/
def dynAction : Action → Bool
  | .sleep => true
  | .configureDynamically _ => true
  | .eventMessage _ _ _ => true
  | .removeMetrics => true
  | _ => false

/-- Two concurrent callers, both submitting the stale sample snapshot. -/
def sampleProg : Bool → List Action :=
  fun i => if i then (fullReconfiguration baseState staleSnapshot benignEnv).trace
    else (fullReconfiguration baseState staleSnapshot benignEnv).trace

/-- Final program state of the sample interleaving: both callers done. -/
def sampleFinalProg : Bool → List Action :=
  setProg (setProg (setProg (setProg (setProg (setProg (setProg (setProg
    sampleProg
    false [Action.setSSLExpireTime, Action.setSSLInfo, Action.lockRelease])
    false [Action.setSSLInfo, Action.lockRelease])
    false [Action.lockRelease])
    false [])
    true [Action.setSSLExpireTime, Action.setSSLInfo, Action.lockRelease])
    true [Action.setSSLInfo, Action.lockRelease])
    true [Action.lockRelease])
    true []

/-! ## Theorems -/

/-- The debug-diff block only emits temp-file and diff actions. -/
theorem debugDiffTrace_spec (n : ConfigurerState) (content : String)
    (env : Env) :
    ∀ a ∈ (debugDiffTrace n content env).snd, updAction a = true := by
  unfold debugDiffTrace
  repeat' split
  all_goals
    first
    | (show ∀ a ∈ ([] : List Action), updAction a = true
       decide)
    | (show ∀ a ∈ [Action.writeTempFile], updAction a = true
       decide)
    | (show ∀ a ∈ [Action.writeTempFile, Action.execDiff, Action.removeTempFile],
          updAction a = true
       decide)

/-- Lemma: `updateConfiguration` never touches the stored last-applied snapshot or
the retry setting, and every action it emits is one of its own file/process
calls. -/
theorem updateConfiguration_spec (n : ConfigurerState) (cfg : TemplateConfig)
    (env : Env) :
    (updateConfiguration n cfg env).state.templateConfig = n.templateConfig ∧
    (updateConfiguration n cfg env).state.dynamicConfigurationRetries =
      n.dynamicConfigurationRetries ∧
    (∀ a ∈ (updateConfiguration n cfg env).trace, updAction a = true) := by
  unfold updateConfiguration
  repeat' split
  all_goals refine ⟨rfl, rfl, ?_⟩
  all_goals
    first
    | (show ∀ a ∈ [Action.createOpentracingCfg], updAction a = true
       decide)
    | (intro a ha
       rcases List.mem_cons.mp ha with rfl | h
       · rfl
       · first
         | exact debugDiffTrace_spec n _ env a h
         | (rcases List.mem_append.mp h with h' | h'
            · exact debugDiffTrace_spec n _ env a h'
            · simp only [List.mem_cons, List.mem_singleton, List.not_mem_nil,
                or_false] at h'
              (rcases h' with rfl | rfl) <;> rfl))

/-- The dynamic stage keeps the live artifact and the retry setting, never
panics, either keeps or replaces the last-applied snapshot, and only appends
dynamic-stage actions to the trace. -/
theorem dynamicStage_spec (n : ConfigurerState) (cfg : TemplateConfig)
    (env : Env) (stored : TemplateConfig) (acts : List Action) :
    (dynamicStage n cfg env stored acts).panicked = false ∧
    (dynamicStage n cfg env stored acts).state.liveConfig = n.liveConfig ∧
    (dynamicStage n cfg env stored acts).state.dynamicConfigurationRetries =
      n.dynamicConfigurationRetries ∧
    ((dynamicStage n cfg env stored acts).state.templateConfig =
        n.templateConfig ∨
      (dynamicStage n cfg env stored acts).state.templateConfig = some cfg) ∧
    ∃ extra, (dynamicStage n cfg env stored acts).trace = acts ++ extra ∧
      ∀ a ∈ extra, dynAction a = true := by
  unfold dynamicStage
  cases hl : dynamicPushLoop n.dynamicConfigurationRetries env with
  | mk res attempts =>
  have hmem : ∀ tail : List Action, (∀ a ∈ tail, dynAction a = true) →
      ∀ a ∈ (if configFromTemplate (some stored) = emptyConfiguration
          then [Action.sleep] else ([] : List Action)) ++
        ((List.range attempts).map Action.configureDynamically ++ tail),
        dynAction a = true := by
    intro tail htail a ha
    rcases List.mem_append.mp ha with h | h
    · split at h <;> simp only [List.mem_singleton, List.not_mem_nil] at h
      subst h
      rfl
    · rcases List.mem_append.mp h with h | h
      · obtain ⟨k, _, rfl⟩ := List.mem_map.mp h
        rfl
      · exact htail a h
  have hacts : ∀ tail : List Action,
      (if configFromTemplate (some stored) = emptyConfiguration
        then acts ++ [Action.sleep] else acts) ++
        (List.range attempts).map Action.configureDynamically ++ tail =
      acts ++
        ((if configFromTemplate (some stored) = emptyConfiguration
          then [Action.sleep] else ([] : List Action)) ++
          ((List.range attempts).map Action.configureDynamically ++ tail)) := by
    intro tail
    split <;> simp
  cases res with
  | some e =>
    exact ⟨rfl, rfl, rfl, Or.inl rfl, _, hacts _,
      hmem _ (by simp [dynAction, List.forall_mem_cons])⟩
  | none =>
    exact ⟨rfl, rfl, rfl, Or.inr rfl, _, hacts _,
      hmem _ (by simp [dynAction, List.forall_mem_cons])⟩

/-- The reload stage never panics, keeps the retry setting, keeps or
replaces the last-applied snapshot, and appends only update, reporting or
dynamic-stage actions to the trace it was given. -/
theorem reloadStage_spec (n : ConfigurerState) (cfg : TemplateConfig)
    (env : Env) (stored : TemplateConfig) (acts : List Action) :
    (reloadStage n cfg env stored acts).panicked = false ∧
    (reloadStage n cfg env stored acts).state.dynamicConfigurationRetries =
      n.dynamicConfigurationRetries ∧
    ((reloadStage n cfg env stored acts).state.templateConfig =
        n.templateConfig ∨
      (reloadStage n cfg env stored acts).state.templateConfig = some cfg) ∧
    ∃ extra, (reloadStage n cfg env stored acts).trace = acts ++ extra ∧
      ∀ a ∈ extra,
        updAction a = true ∨ reportAction a = true ∨ dynAction a = true := by
  unfold reloadStage
  by_cases hc : stored.Cfg.Checksum ≠ cfg.Cfg.Checksum ∨ env.isDynamicEnough = false
  · rw [if_pos hc]
    have hspec := updateConfiguration_spec n cfg env
    cases hu : updateConfiguration n cfg env with
    | mk uerr ust utr =>
    rw [hu] at hspec
    obtain ⟨hu1, hu2, hu3⟩ := hspec
    cases uerr with
    | some e =>
      refine ⟨rfl, hu2, Or.inl hu1, utr ++
        [.incReloadErrorCount, .configSuccess env.hashVal false,
         .eventMessage "Warning" "RELOAD" ("Error reloading NGINX: " ++ e)],
        by simp, ?_⟩
      intro a ha
      rcases List.mem_append.mp ha with h | h
      · exact Or.inl (hu3 a h)
      · simp only [List.mem_cons, List.not_mem_nil, or_false] at h
        rcases h with rfl | rfl | rfl <;> exact Or.inr (Or.inl rfl)
    | none =>
      obtain ⟨hd1, hd2, hd3, hd4, extra, hext, hmem⟩ :=
        dynamicStage_spec ust cfg env stored
          (acts ++ utr ++
            [.configSuccess env.hashVal true, .incReloadCount,
             .eventMessage "Normal" "RELOAD"
               "NGINX reload triggered due to a change in configuration"])
      refine ⟨hd1, by rw [hd3]; exact hu2, ?_, ?_⟩
      · rcases hd4 with h | h
        · exact Or.inl (by rw [h]; exact hu1)
        · exact Or.inr h
      · refine ⟨utr ++
          [.configSuccess env.hashVal true, .incReloadCount,
           .eventMessage "Normal" "RELOAD"
             "NGINX reload triggered due to a change in configuration"] ++ extra,
          by rw [hext]; simp, ?_⟩
        intro a ha
        rcases List.mem_append.mp ha with h | h
        · rcases List.mem_append.mp h with h' | h'
          · exact Or.inl (hu3 a h')
          · simp only [List.mem_cons, List.not_mem_nil, or_false] at h'
            rcases h' with rfl | rfl | rfl <;> exact Or.inr (Or.inl rfl)
        · exact Or.inr (Or.inr (hmem a h))
  · rw [if_neg hc]
    obtain ⟨hd1, hd2, hd3, hd4, extra, hext, hmem⟩ :=
      dynamicStage_spec n cfg env stored acts
    exact ⟨hd1, hd3, hd4, extra, hext, fun a ha => Or.inr (Or.inr (hmem a ha))⟩

/-- When no reload is required (checksum unchanged, differ reports the
change dynamic-eligible), the reload stage reduces to the dynamic stage. -/
theorem reloadStage_skip (n : ConfigurerState) (cfg : TemplateConfig)
    (env : Env) (stored : TemplateConfig) (acts : List Action)
    (h1 : stored.Cfg.Checksum = cfg.Cfg.Checksum)
    (h2 : env.isDynamicEnough = true) :
    reloadStage n cfg env stored acts = dynamicStage n cfg env stored acts := by
  unfold reloadStage
  rw [if_neg (by simp [h1, h2])]

/-- The DH-parameter stage appends only a DH write, update, reporting or
dynamic-stage actions; it never panics. -/
theorem afterCertStage_spec (n : ConfigurerState) (cfg : TemplateConfig)
    (env : Env) (stored : TemplateConfig) (acts : List Action) :
    (afterCertStage n cfg env stored acts).panicked = false ∧
    ((afterCertStage n cfg env stored acts).state.templateConfig =
        n.templateConfig ∨
      (afterCertStage n cfg env stored acts).state.templateConfig = some cfg) ∧
    ∃ extra, (afterCertStage n cfg env stored acts).trace = acts ++ extra ∧
      ∀ a ∈ extra,
        (∃ p, a = Action.writeDHParam p) ∨ updAction a = true ∨
          reportAction a = true ∨ dynAction a = true := by
  unfold afterCertStage
  by_cases hdh : cfg.DHParamFile ≠ "" ∧ cfg.DHParamContent ≠ none
  · rw [if_pos hdh]
    cases hde : env.dhParamErr with
    | some e =>
      refine ⟨rfl, Or.inl rfl, [Action.writeDHParam cfg.DHParamFile], rfl, ?_⟩
      intro a ha
      simp only [List.mem_singleton] at ha
      exact Or.inl ⟨cfg.DHParamFile, ha⟩
    | none =>
      obtain ⟨hr1, _, hr3, extra, hext, hmem⟩ :=
        reloadStage_spec n cfg env stored
          (acts ++ [Action.writeDHParam cfg.DHParamFile])
      refine ⟨hr1, hr3, Action.writeDHParam cfg.DHParamFile :: extra,
        by rw [hext]; simp, ?_⟩
      intro a ha
      rcases List.mem_cons.mp ha with rfl | h
      · exact Or.inl ⟨cfg.DHParamFile, rfl⟩
      · rcases hmem a h with h' | h' | h' <;> simp [h']
  · rw [if_neg hdh]
    obtain ⟨hr1, _, hr3, extra, hext, hmem⟩ := reloadStage_spec n cfg env stored acts
    refine ⟨hr1, hr3, extra, hext, ?_⟩
    intro a ha
    rcases hmem a ha with h' | h' | h' <;> simp [h']

/-- Case split for a fresh snapshot: the body either aborts in the
certificate/DH sync with the state unchanged and only pre-stage actions in
the trace, or reaches the reload stage (possibly via the DH stage) with only
pre-stage actions emitted so far. -/
theorem fullReconfigurationBody_cases (n : ConfigurerState)
    (cfg : TemplateConfig) (env : Env) (t : TemplateConfig)
    (h1 : n.templateConfig = some t)
    (h2 : t.GeneratedTime < cfg.GeneratedTime) :
    (∃ acts1, (∀ a ∈ acts1, preAction a = true) ∧
        fullReconfigurationBody n cfg env =
          { state := n, trace := acts1, panicked := false }) ∨
    (∃ acts1, (∀ a ∈ acts1, preAction a = true) ∧
        fullReconfigurationBody n cfg env =
          afterCertStage n cfg env t acts1) := by
  unfold fullReconfigurationBody
  simp only [h1]
  rw [if_neg (not_le.mpr h2)]
  by_cases hcw : defaultCertNeedsWrite t cfg = true
  · rw [if_pos hcw]
    cases hs : env.storeSSLCertErr with
    | some e => exact Or.inl ⟨_, by simp [preAction, List.forall_mem_cons], rfl⟩
    | none => exact Or.inr ⟨_, by simp [preAction, List.forall_mem_cons], rfl⟩
  · rw [if_neg hcw]
    exact Or.inr ⟨_, by simp [preAction, List.forall_mem_cons], rfl⟩

/-- If the dry-run rejects everything the renderer can produce, then
`updateConfiguration` fails before the live write: some error is returned,
the state is untouched and only the opentracing-config call happened. -/
theorem updateConfiguration_reject (n : ConfigurerState) (cfg : TemplateConfig)
    (env : Env)
    (hrej : ∀ content, env.renderResult = Except.ok content →
      (env.testTemplateOf content).isSome = true) :
    ∃ e, updateConfiguration n cfg env =
      { err := some e, state := n, trace := [Action.createOpentracingCfg] } := by
  unfold updateConfiguration
  repeat' split
  all_goals
    first
    | exact ⟨_, rfl⟩
    | simp_all

/-- Under a rejecting dry-run the reload stage leaves the live artifact
alone and emits no live write and no reload signal. -/
theorem reloadStage_reject (n : ConfigurerState) (cfg : TemplateConfig)
    (env : Env) (stored : TemplateConfig) (acts : List Action)
    (hrej : ∀ content, env.renderResult = Except.ok content →
      (env.testTemplateOf content).isSome = true) :
    (reloadStage n cfg env stored acts).state.liveConfig = n.liveConfig ∧
    ∃ extra, (reloadStage n cfg env stored acts).trace = acts ++ extra ∧
      (∀ c, Action.writeLiveConfig c ∉ extra) ∧
      Action.execReload ∉ extra := by
  unfold reloadStage
  by_cases hc : stored.Cfg.Checksum ≠ cfg.Cfg.Checksum ∨ env.isDynamicEnough = false
  · rw [if_pos hc]
    obtain ⟨e, hrep⟩ := updateConfiguration_reject n cfg env hrej
    rw [hrep]
    refine ⟨rfl, [Action.createOpentracingCfg, .incReloadErrorCount,
      .configSuccess env.hashVal false,
      .eventMessage "Warning" "RELOAD" ("Error reloading NGINX: " ++ e)],
      by simp, ?_, ?_⟩
    · intro c hc'
      simp at hc'
    · intro hc'
      simp at hc'
  · rw [if_neg hc]
    obtain ⟨_, hlive, _, _, extra, hext, hmem⟩ :=
      dynamicStage_spec n cfg env stored acts
    refine ⟨hlive, extra, hext, ?_, ?_⟩
    · intro c hc'
      simpa [dynAction] using hmem _ hc'
    · intro hc'
      simpa [dynAction] using hmem _ hc'

/-- Under a rejecting dry-run the DH stage leaves the live artifact alone
and emits no live write and no reload signal. -/
theorem afterCertStage_reject (n : ConfigurerState) (cfg : TemplateConfig)
    (env : Env) (stored : TemplateConfig) (acts : List Action)
    (hrej : ∀ content, env.renderResult = Except.ok content →
      (env.testTemplateOf content).isSome = true) :
    (afterCertStage n cfg env stored acts).state.liveConfig = n.liveConfig ∧
    ∃ extra, (afterCertStage n cfg env stored acts).trace = acts ++ extra ∧
      (∀ c, Action.writeLiveConfig c ∉ extra) ∧
      Action.execReload ∉ extra := by
  unfold afterCertStage
  by_cases hdh : cfg.DHParamFile ≠ "" ∧ cfg.DHParamContent ≠ none
  · rw [if_pos hdh]
    cases env.dhParamErr with
    | some e =>
      refine ⟨rfl, [Action.writeDHParam cfg.DHParamFile], rfl, ?_, ?_⟩
      · intro c hc'
        simp at hc'
      · intro hc'
        simp at hc'
    | none =>
      obtain ⟨hlive, extra, hext, hw, he⟩ :=
        reloadStage_reject n cfg env stored
          (acts ++ [Action.writeDHParam cfg.DHParamFile]) hrej
      refine ⟨hlive, Action.writeDHParam cfg.DHParamFile :: extra,
        by rw [hext]; simp, ?_, ?_⟩
      · intro c hc'
        rcases List.mem_cons.mp hc' with h | h
        · simp at h
        · exact hw c h
      · intro hc'
        rcases List.mem_cons.mp hc' with h | h
        · simp at h
        · exact he h
  · rw [if_neg hdh]
    exact reloadStage_reject n cfg env stored acts hrej

/-- Under a rejecting dry-run the whole body leaves the live artifact alone
and emits no live write and no reload signal, on every path. -/
theorem fullReconfigurationBody_reject (n : ConfigurerState)
    (cfg : TemplateConfig) (env : Env)
    (hrej : ∀ content, env.renderResult = Except.ok content →
      (env.testTemplateOf content).isSome = true) :
    (fullReconfigurationBody n cfg env).state.liveConfig = n.liveConfig ∧
    (∀ c, Action.writeLiveConfig c ∉ (fullReconfigurationBody n cfg env).trace) ∧
    Action.execReload ∉ (fullReconfigurationBody n cfg env).trace := by
  cases hT : n.templateConfig with
  | none =>
    have hbody : fullReconfigurationBody n cfg env =
        { state := n, trace := [.setSSLExpireTime, .setSSLInfo]
          panicked := true } := by
      unfold fullReconfigurationBody
      rw [hT]
    rw [hbody]
    exact ⟨rfl, by simp, by simp⟩
  | some t =>
    by_cases hst : t.GeneratedTime ≥ cfg.GeneratedTime
    · have hbody : fullReconfigurationBody n cfg env =
          { state := n, trace := [.setSSLExpireTime, .setSSLInfo]
            panicked := false } := by
        unfold fullReconfigurationBody
        simp only [hT]
        rw [if_pos hst]
      rw [hbody]
      exact ⟨rfl, by simp, by simp⟩
    · rcases fullReconfigurationBody_cases n cfg env t hT (lt_of_not_ge hst) with
        ⟨acts1, hpre, heq⟩ | ⟨acts1, hpre, heq⟩
      · rw [heq]
        refine ⟨rfl, ?_, ?_⟩
        · intro c hc
          simpa [preAction] using hpre _ hc
        · intro hc
          simpa [preAction] using hpre _ hc
      · rw [heq]
        obtain ⟨hlive, extra, hext, hw, he⟩ :=
          afterCertStage_reject n cfg env t acts1 hrej
        refine ⟨hlive, ?_, ?_⟩
        · intro c hc
          rw [hext] at hc
          rcases List.mem_append.mp hc with h | h
          · simpa [preAction] using hpre _ h
          · exact hw c h
        · intro hc
          rw [hext] at hc
          rcases List.mem_append.mp hc with h | h
          · simpa [preAction] using hpre _ h
          · exact he h

/-- C1: for every reconciliation in which the rendered artifact is rejected
by the dry-run validation, `updateConfiguration` returns the validation
error before the live artifact path is written: the state it returns is
unchanged, and over the whole `fullReconfiguration` call the live artifact
content is unchanged, no write to the live path occurs, and no reload
signal is sent to the proxy. -/
theorem validation_failure_nondestructive (n : ConfigurerState)
    (cfg : TemplateConfig) (env : Env)
    (hrej : ∀ content, env.renderResult = Except.ok content →
      (env.testTemplateOf content).isSome = true) :
    (updateConfiguration n cfg env).err.isSome = true ∧
    (updateConfiguration n cfg env).state = n ∧
    (∀ content e, env.opentracingErr = none →
      env.renderResult = Except.ok content →
      env.testTemplateOf content = some e →
      updateConfiguration n cfg env =
        { err := some e, state := n, trace := [Action.createOpentracingCfg] }) ∧
    (fullReconfiguration n cfg env).state.liveConfig = n.liveConfig ∧
    (∀ c, Action.writeLiveConfig c ∉ (fullReconfiguration n cfg env).trace) ∧
    Action.execReload ∉ (fullReconfiguration n cfg env).trace := by
  obtain ⟨e, hrep⟩ := updateConfiguration_reject n cfg env hrej
  obtain ⟨hlive, hw, he⟩ := fullReconfigurationBody_reject n cfg env hrej
  refine ⟨by rw [hrep]; rfl, by rw [hrep], ?_, hlive, ?_, ?_⟩
  · intro content e' ho hr ht
    simp [updateConfiguration, ho, hr, ht]
  · intro c hc
    unfold fullReconfiguration at hc
    rcases List.mem_cons.mp hc with h | h
    · simp at h
    · rcases List.mem_append.mp h with h | h
      · exact hw c h
      · simp at h
  · intro hc
    unfold fullReconfiguration at hc
    rcases List.mem_cons.mp hc with h | h
    · simp at h
    · rcases List.mem_append.mp h with h | h
      · exact he h
      · simp at h

/-- Witness for `validation_failure_nondestructive` at a concrete input
(fresh snapshot forcing the reload path, dry-run rejecting). -/
theorem validation_failure_nondestructive_witness :
    (updateConfiguration baseState freshNewCk rejectEnv).err.isSome = true ∧
    (updateConfiguration baseState freshNewCk rejectEnv).state = baseState ∧
    (∀ content e, rejectEnv.opentracingErr = none →
      rejectEnv.renderResult = Except.ok content →
      rejectEnv.testTemplateOf content = some e →
      updateConfiguration baseState freshNewCk rejectEnv =
        { err := some e, state := baseState
          trace := [Action.createOpentracingCfg] }) ∧
    (fullReconfiguration baseState freshNewCk rejectEnv).state.liveConfig =
      baseState.liveConfig ∧
    (∀ c, Action.writeLiveConfig c ∉
      (fullReconfiguration baseState freshNewCk rejectEnv).trace) ∧
    Action.execReload ∉
      (fullReconfiguration baseState freshNewCk rejectEnv).trace :=
  validation_failure_nondestructive baseState freshNewCk rejectEnv
    (fun _ _ => rfl)


/-- Membership in a `fullReconfiguration` trace is membership in the body
trace or one of the lock actions. -/
theorem mem_fullReconfiguration_trace (n : ConfigurerState)
    (cfg : TemplateConfig) (env : Env) (a : Action) :
    a ∈ (fullReconfiguration n cfg env).trace ↔
      a = Action.lockAcquire ∨
        a ∈ (fullReconfigurationBody n cfg env).trace ∨
        a = Action.lockRelease := by
  unfold fullReconfiguration
  simp [List.mem_cons, List.mem_append]

/-- Certificate-store failure path: exact result of the body. -/
theorem body_cert_abort (n : ConfigurerState) (cfg : TemplateConfig)
    (env : Env) (t : TemplateConfig) (e : String)
    (h1 : n.templateConfig = some t)
    (h2 : t.GeneratedTime < cfg.GeneratedTime)
    (hcw : defaultCertNeedsWrite t cfg = true)
    (hs : env.storeSSLCertErr = some e) :
    fullReconfigurationBody n cfg env =
      { state := n
        trace := [.setSSLExpireTime, .setSSLInfo,
          Action.storeSSLCert (defaultCertStoreName cfg)]
        panicked := false } := by
  unfold fullReconfigurationBody
  simp only [h1]
  rw [if_neg (not_le.mpr h2), if_pos hcw]
  simp only [hs]

/-- When the certificate step does not abort (no certificate write needed,
or the store succeeds), the body reaches the DH stage, having emitted
exactly the metrics calls plus, when a write was needed, the store call. -/
theorem body_reaches_afterCert (n : ConfigurerState) (cfg : TemplateConfig)
    (env : Env) (t : TemplateConfig)
    (h1 : n.templateConfig = some t)
    (h2 : t.GeneratedTime < cfg.GeneratedTime)
    (hcert : defaultCertNeedsWrite t cfg = false ∨ env.storeSSLCertErr = none) :
    ∃ acts1, fullReconfigurationBody n cfg env =
        afterCertStage n cfg env t acts1 ∧
      (∀ a ∈ acts1, preAction a = true) ∧
      (defaultCertNeedsWrite t cfg = false →
        acts1 = [.setSSLExpireTime, .setSSLInfo]) ∧
      (defaultCertNeedsWrite t cfg = true →
        acts1 = [.setSSLExpireTime, .setSSLInfo,
          Action.storeSSLCert (defaultCertStoreName cfg)]) := by
  unfold fullReconfigurationBody
  simp only [h1]
  rw [if_neg (not_le.mpr h2)]
  by_cases hcw : defaultCertNeedsWrite t cfg = true
  · rcases hcert with hcf | hs
    · rw [hcw] at hcf
      exact absurd hcf (by simp)
    · rw [if_pos hcw]
      simp only [hs]
      exact ⟨_, rfl, by simp [preAction, List.forall_mem_cons],
        fun hcf => absurd (hcw.symm.trans hcf) (by simp), fun _ => rfl⟩
  · rw [if_neg hcw]
    have hcf : defaultCertNeedsWrite t cfg = false := by
      cases h : defaultCertNeedsWrite t cfg
      · rfl
      · exact absurd h hcw
    exact ⟨_, rfl, by simp [preAction, List.forall_mem_cons],
      fun _ => rfl, fun h => absurd (hcf.symm.trans h) (by simp)⟩

/-- DH-parameter write failure: exact result of the DH stage. -/
theorem afterCertStage_dh_abort (n : ConfigurerState) (cfg : TemplateConfig)
    (env : Env) (stored : TemplateConfig) (acts : List Action) (e : String)
    (hfile : cfg.DHParamFile ≠ "") (hcont : cfg.DHParamContent ≠ none)
    (hde : env.dhParamErr = some e) :
    afterCertStage n cfg env stored acts =
      { state := n, trace := acts ++ [Action.writeDHParam cfg.DHParamFile]
        panicked := false } := by
  unfold afterCertStage
  rw [if_pos ⟨hfile, hcont⟩]
  simp only [hde]

/-- When the DH-parameter step does not fail, the DH stage reaches the
reload stage, possibly after recording the DH write. -/
theorem afterCert_reaches_reload (n : ConfigurerState) (cfg : TemplateConfig)
    (env : Env) (stored : TemplateConfig) (acts : List Action)
    (hdh : env.dhParamErr = none) :
    ∃ acts2, (acts2 = acts ∨
        acts2 = acts ++ [Action.writeDHParam cfg.DHParamFile]) ∧
      afterCertStage n cfg env stored acts =
        reloadStage n cfg env stored acts2 := by
  unfold afterCertStage
  by_cases hc : cfg.DHParamFile ≠ "" ∧ cfg.DHParamContent ≠ none
  · rw [if_pos hc]
    simp only [hdh]
    exact ⟨_, Or.inr rfl, rfl⟩
  · rw [if_neg hc]
    exact ⟨acts, Or.inl rfl, rfl⟩

/-- Exact result of the reload stage when a reload is required and
`updateConfiguration` fails. -/
theorem reloadStage_update_fail (n : ConfigurerState) (cfg : TemplateConfig)
    (env : Env) (stored : TemplateConfig) (acts : List Action) (e : String)
    (st : ConfigurerState) (tr : List Action)
    (hc : stored.Cfg.Checksum ≠ cfg.Cfg.Checksum ∨ env.isDynamicEnough = false)
    (hu : updateConfiguration n cfg env = { err := some e, state := st, trace := tr }) :
    reloadStage n cfg env stored acts =
      { state := st
        trace := acts ++ tr ++
          [.incReloadErrorCount, .configSuccess env.hashVal false,
           .eventMessage "Warning" "RELOAD" ("Error reloading NGINX: " ++ e)]
        panicked := false } := by
  unfold reloadStage
  rw [if_pos hc, hu]

/-- When verbose temp-file operations succeed, the debug-diff block reports
no error. -/
theorem debugDiffTrace_fst_none (n : ConfigurerState) (content : String)
    (env : Env) (htc : env.createTempErr = none)
    (htw : env.writeTempErr = none) :
    (debugDiffTrace n content env).fst = none := by
  unfold debugDiffTrace
  split
  · simp only [htc, htw]
  · rfl

/-- Exact result of `updateConfiguration` when everything succeeds up to the
reload command, which fails: the artifact was written, the returned error
embeds the command output. -/
theorem updateConfiguration_reload_fail (n : ConfigurerState)
    (cfg : TemplateConfig) (env : Env) (content e o : String)
    (ho : env.opentracingErr = none)
    (hr : env.renderResult = Except.ok content)
    (ht : env.testTemplateOf content = none)
    (htc : env.createTempErr = none) (htw : env.writeTempErr = none)
    (hwl : env.writeLiveErr = none)
    (hre : env.reloadErr = some (e, o)) :
    updateConfiguration n cfg env =
      { err := some (e ++ "\n" ++ o)
        state := { n with liveConfig := content }
        trace := Action.createOpentracingCfg ::
          ((debugDiffTrace n content env).snd ++
            [Action.writeLiveConfig content, Action.execReload]) } := by
  have hf := debugDiffTrace_fst_none n content env htc htw
  unfold updateConfiguration
  simp only [ho, hr, ht, hf, hwl, hre]

/-- Exact result of `updateConfiguration` when everything succeeds,
including the reload command. -/
theorem updateConfiguration_ok (n : ConfigurerState)
    (cfg : TemplateConfig) (env : Env) (content : String)
    (ho : env.opentracingErr = none)
    (hr : env.renderResult = Except.ok content)
    (ht : env.testTemplateOf content = none)
    (htc : env.createTempErr = none) (htw : env.writeTempErr = none)
    (hwl : env.writeLiveErr = none)
    (hre : env.reloadErr = none) :
    updateConfiguration n cfg env =
      { err := none
        state := { n with liveConfig := content }
        trace := Action.createOpentracingCfg ::
          ((debugDiffTrace n content env).snd ++
            [Action.writeLiveConfig content, Action.execReload]) } := by
  have hf := debugDiffTrace_fst_none n content env htc htw
  unfold updateConfiguration
  simp only [ho, hr, ht, hf, hwl, hre]

/-- With an unchanged checksum and a dynamic-eligible change, the DH stage
reaches the dynamic stage with no reload branch taken. -/
theorem afterCertStage_noreload (n : ConfigurerState) (cfg : TemplateConfig)
    (env : Env) (stored : TemplateConfig) (acts : List Action)
    (hck : stored.Cfg.Checksum = cfg.Cfg.Checksum)
    (hdyn : env.isDynamicEnough = true) :
    (afterCertStage n cfg env stored acts).state.liveConfig = n.liveConfig ∧
    ∃ extra, (afterCertStage n cfg env stored acts).trace = acts ++ extra ∧
      ∀ a ∈ extra, (∃ p, a = Action.writeDHParam p) ∨ dynAction a = true := by
  unfold afterCertStage
  by_cases hc : cfg.DHParamFile ≠ "" ∧ cfg.DHParamContent ≠ none
  · rw [if_pos hc]
    cases hde : env.dhParamErr with
    | some e =>
      exact ⟨rfl, [Action.writeDHParam cfg.DHParamFile], rfl,
        fun a ha => by
          simp only [List.mem_singleton] at ha
          exact Or.inl ⟨_, ha⟩⟩
    | none =>
      rw [reloadStage_skip n cfg env stored _ hck hdyn]
      obtain ⟨_, hlive, _, _, extra, hext, hmem⟩ :=
        dynamicStage_spec n cfg env stored
          (acts ++ [Action.writeDHParam cfg.DHParamFile])
      exact ⟨hlive, Action.writeDHParam cfg.DHParamFile :: extra,
        by rw [hext]; simp,
        fun a ha => by
          rcases List.mem_cons.mp ha with rfl | h
          · exact Or.inl ⟨_, rfl⟩
          · exact Or.inr (hmem a h)⟩
  · rw [if_neg hc]
    rw [reloadStage_skip n cfg env stored acts hck hdyn]
    obtain ⟨_, hlive, _, _, extra, hext, hmem⟩ :=
      dynamicStage_spec n cfg env stored acts
    exact ⟨hlive, extra, hext, fun a ha => Or.inr (hmem a ha)⟩

/-- C4: when the configmap checksum is unchanged from the stored snapshot
and the differ reports the change dynamic-eligible, the reconciliation
short-circuits before any configuration-artifact work: the live artifact
content is unchanged, nothing is rendered (no opentracing/render call), no
write to the live path occurs and no reload signal is sent. -/
theorem unchanged_snapshot_no_reload (n : ConfigurerState)
    (cfg : TemplateConfig) (env : Env) (t : TemplateConfig)
    (h1 : n.templateConfig = some t)
    (h2 : t.GeneratedTime < cfg.GeneratedTime)
    (hck : t.Cfg.Checksum = cfg.Cfg.Checksum)
    (hdyn : env.isDynamicEnough = true) :
    (fullReconfiguration n cfg env).state.liveConfig = n.liveConfig ∧
    (∀ c, Action.writeLiveConfig c ∉ (fullReconfiguration n cfg env).trace) ∧
    Action.execReload ∉ (fullReconfiguration n cfg env).trace ∧
    Action.createOpentracingCfg ∉ (fullReconfiguration n cfg env).trace := by
  rcases fullReconfigurationBody_cases n cfg env t h1 h2 with
    ⟨acts1, hpre, heq⟩ | ⟨acts1, hpre, heq⟩
  · refine ⟨?_, ?_, ?_, ?_⟩
    · show (fullReconfigurationBody n cfg env).state.liveConfig = n.liveConfig
      rw [heq]
    · intro c hc
      rcases (mem_fullReconfiguration_trace n cfg env _).mp hc with h | h | h
      · simp at h
      · rw [heq] at h
        simpa [preAction] using hpre _ h
      · simp at h
    · intro hc
      rcases (mem_fullReconfiguration_trace n cfg env _).mp hc with h | h | h
      · simp at h
      · rw [heq] at h
        simpa [preAction] using hpre _ h
      · simp at h
    · intro hc
      rcases (mem_fullReconfiguration_trace n cfg env _).mp hc with h | h | h
      · simp at h
      · rw [heq] at h
        simpa [preAction] using hpre _ h
      · simp at h
  · obtain ⟨hlive, extra, hext, hmem⟩ :=
      afterCertStage_noreload n cfg env t acts1 hck hdyn
    refine ⟨?_, ?_, ?_, ?_⟩
    · show (fullReconfigurationBody n cfg env).state.liveConfig = n.liveConfig
      rw [heq]
      exact hlive
    · intro c hc
      rcases (mem_fullReconfiguration_trace n cfg env _).mp hc with h | h | h
      · simp at h
      · rw [heq, hext] at h
        rcases List.mem_append.mp h with h' | h'
        · simpa [preAction] using hpre _ h'
        · rcases hmem _ h' with ⟨p, hp⟩ | h''
          · simp at hp
          · simp [dynAction] at h''
      · simp at h
    · intro hc
      rcases (mem_fullReconfiguration_trace n cfg env _).mp hc with h | h | h
      · simp at h
      · rw [heq, hext] at h
        rcases List.mem_append.mp h with h' | h'
        · simpa [preAction] using hpre _ h'
        · rcases hmem _ h' with ⟨p, hp⟩ | h''
          · simp at hp
          · simp [dynAction] at h''
      · simp at h
    · intro hc
      rcases (mem_fullReconfiguration_trace n cfg env _).mp hc with h | h | h
      · simp at h
      · rw [heq, hext] at h
        rcases List.mem_append.mp h with h' | h'
        · simpa [preAction] using hpre _ h'
        · rcases hmem _ h' with ⟨p, hp⟩ | h''
          · simp at hp
          · simp [dynAction] at h''
      · simp at h

/-- Witness for `unchanged_snapshot_no_reload` at a concrete input. -/
theorem unchanged_snapshot_no_reload_witness :
    (fullReconfiguration baseState freshSameCk benignEnv).state.liveConfig =
      baseState.liveConfig ∧
    (∀ c, Action.writeLiveConfig c ∉
      (fullReconfiguration baseState freshSameCk benignEnv).trace) ∧
    Action.execReload ∉
      (fullReconfiguration baseState freshSameCk benignEnv).trace ∧
    Action.createOpentracingCfg ∉
      (fullReconfiguration baseState freshSameCk benignEnv).trace :=
  unchanged_snapshot_no_reload baseState freshSameCk benignEnv baseTemplate
    rfl (by decide) rfl rfl

/-- C5: if the default-certificate write fails, or the DH-parameter write
fails, the reconciliation aborts without touching the proxy: the state is
exactly as before (even the last-applied snapshot), nothing is rendered,
no live write, no reload signal and no dynamic push occur. -/
theorem tls_write_failure_aborts (n : ConfigurerState)
    (cfg : TemplateConfig) (env : Env) (t : TemplateConfig)
    (h1 : n.templateConfig = some t)
    (h2 : t.GeneratedTime < cfg.GeneratedTime)
    (habort :
      (defaultCertNeedsWrite t cfg = true ∧ env.storeSSLCertErr.isSome = true) ∨
      (env.storeSSLCertErr = none ∧ cfg.DHParamFile ≠ "" ∧
        cfg.DHParamContent ≠ none ∧ env.dhParamErr.isSome = true)) :
    (fullReconfiguration n cfg env).state = n ∧
    (∀ c, Action.writeLiveConfig c ∉ (fullReconfiguration n cfg env).trace) ∧
    Action.execReload ∉ (fullReconfiguration n cfg env).trace ∧
    (∀ k, Action.configureDynamically k ∉ (fullReconfiguration n cfg env).trace) ∧
    Action.createOpentracingCfg ∉ (fullReconfiguration n cfg env).trace := by
  have hbody : ∃ acts1, (∀ a ∈ acts1, preAction a = true) ∧
      fullReconfigurationBody n cfg env =
        { state := n, trace := acts1, panicked := false } := by
    rcases habort with ⟨hcw, hse⟩ | ⟨hs, hfile, hcont, hde⟩
    · obtain ⟨e, he⟩ := Option.isSome_iff_exists.mp hse
      exact ⟨_, by simp [preAction, List.forall_mem_cons],
        body_cert_abort n cfg env t e h1 h2 hcw he⟩
    · obtain ⟨e, he⟩ := Option.isSome_iff_exists.mp hde
      obtain ⟨acts1, heq, hpre, _, _⟩ :=
        body_reaches_afterCert n cfg env t h1 h2 (Or.inr hs)
      refine ⟨acts1 ++ [Action.writeDHParam cfg.DHParamFile], ?_, ?_⟩
      · intro a ha
        rcases List.mem_append.mp ha with h | h
        · exact hpre a h
        · simp only [List.mem_singleton] at h
          subst h
          rfl
      · rw [heq, afterCertStage_dh_abort n cfg env t acts1 e hfile hcont he]
  obtain ⟨acts1, hpre, heq⟩ := hbody
  refine ⟨?_, ?_, ?_, ?_, ?_⟩
  · show (fullReconfigurationBody n cfg env).state = n
    rw [heq]
  · intro c hc
    rcases (mem_fullReconfiguration_trace n cfg env _).mp hc with h | h | h
    · simp at h
    · rw [heq] at h
      simpa [preAction] using hpre _ h
    · simp at h
  · intro hc
    rcases (mem_fullReconfiguration_trace n cfg env _).mp hc with h | h | h
    · simp at h
    · rw [heq] at h
      simpa [preAction] using hpre _ h
    · simp at h
  · intro k hc
    rcases (mem_fullReconfiguration_trace n cfg env _).mp hc with h | h | h
    · simp at h
    · rw [heq] at h
      simpa [preAction] using hpre _ h
    · simp at h
  · intro hc
    rcases (mem_fullReconfiguration_trace n cfg env _).mp hc with h | h | h
    · simp at h
    · rw [heq] at h
      simpa [preAction] using hpre _ h
    · simp at h

/-- Witness for `tls_write_failure_aborts`: failing certificate store. -/
theorem tls_write_failure_aborts_witness :
    (fullReconfiguration baseState certSnapshot certFailEnv).state = baseState ∧
    (∀ c, Action.writeLiveConfig c ∉
      (fullReconfiguration baseState certSnapshot certFailEnv).trace) ∧
    Action.execReload ∉
      (fullReconfiguration baseState certSnapshot certFailEnv).trace ∧
    (∀ k, Action.configureDynamically k ∉
      (fullReconfiguration baseState certSnapshot certFailEnv).trace) ∧
    Action.createOpentracingCfg ∉
      (fullReconfiguration baseState certSnapshot certFailEnv).trace :=
  tls_write_failure_aborts baseState certSnapshot certFailEnv baseTemplate
    rfl (by decide) (Or.inl ⟨rfl, rfl⟩)

/-- C7: on a fresh reconciliation the certificate store is invoked for the
default certificate iff the new snapshot carries one whose PEM hash differs
from the stored snapshot's (or the stored snapshot has none); identical
content never triggers the store call. -/
theorem default_cert_write_iff_changed (n : ConfigurerState)
    (cfg : TemplateConfig) (env : Env) (t : TemplateConfig)
    (h1 : n.templateConfig = some t)
    (h2 : t.GeneratedTime < cfg.GeneratedTime) :
    (∃ nm, Action.storeSSLCert nm ∈ (fullReconfiguration n cfg env).trace) ↔
      defaultCertNeedsWrite t cfg = true := by
  constructor
  · rintro ⟨nm, hmem⟩
    by_contra hcw
    have hcf : defaultCertNeedsWrite t cfg = false := by
      cases h : defaultCertNeedsWrite t cfg
      · rfl
      · exact absurd h hcw
    obtain ⟨acts1, heq, hpre, hfalse, _⟩ :=
      body_reaches_afterCert n cfg env t h1 h2 (Or.inl hcf)
    obtain ⟨_, _, extra, hext, hmemx⟩ := afterCertStage_spec n cfg env t acts1
    rcases (mem_fullReconfiguration_trace n cfg env _).mp hmem with h | h | h
    · simp at h
    · rw [heq, hext] at h
      rcases List.mem_append.mp h with h' | h'
      · rw [hfalse hcf] at h'
        simp at h'
      · rcases hmemx _ h' with ⟨p, hp⟩ | h'' | h'' | h''
        · simp at hp
        · simp [updAction] at h''
        · simp [reportAction] at h''
        · simp [dynAction] at h''
    · simp at h
  · intro hcw
    refine ⟨defaultCertStoreName cfg, ?_⟩
    cases hs : env.storeSSLCertErr with
    | some e =>
      refine (mem_fullReconfiguration_trace n cfg env _).mpr (Or.inr (Or.inl ?_))
      rw [body_cert_abort n cfg env t e h1 h2 hcw hs]
      simp
    | none =>
      obtain ⟨acts1, heq, hpre, _, htrue⟩ :=
        body_reaches_afterCert n cfg env t h1 h2 (Or.inr hs)
      obtain ⟨_, _, extra, hext, _⟩ := afterCertStage_spec n cfg env t acts1
      refine (mem_fullReconfiguration_trace n cfg env _).mpr (Or.inr (Or.inl ?_))
      rw [heq, hext, htrue hcw]
      simp

/-- Witness for `default_cert_write_iff_changed`: the snapshot introduces a
default certificate, so the store call appears in the trace. -/
theorem default_cert_write_iff_changed_witness :
    (∃ nm, Action.storeSSLCert nm ∈
      (fullReconfiguration baseState certSnapshot benignEnv).trace) ↔
      defaultCertNeedsWrite baseTemplate certSnapshot = true :=
  default_cert_write_iff_changed baseState certSnapshot benignEnv baseTemplate
    rfl (by decide)

/-- C8: when the reload command fails after the artifact was written, the
failure is surfaced without crashing: `updateConfiguration` returns an error
embedding the command output, the reload-error metric is incremented, a
Warning RELOAD event carrying the error is emitted, and the last-applied
snapshot is not updated (while the live artifact retains the newly written
content). -/
theorem reload_failure_surfaced (n : ConfigurerState)
    (cfg : TemplateConfig) (env : Env) (t : TemplateConfig)
    (content e o : String)
    (h1 : n.templateConfig = some t)
    (h2 : t.GeneratedTime < cfg.GeneratedTime)
    (hrel : t.Cfg.Checksum ≠ cfg.Cfg.Checksum ∨ env.isDynamicEnough = false)
    (hcert : defaultCertNeedsWrite t cfg = false ∨ env.storeSSLCertErr = none)
    (hdh : env.dhParamErr = none)
    (ho : env.opentracingErr = none)
    (hr : env.renderResult = Except.ok content)
    (ht : env.testTemplateOf content = none)
    (htc : env.createTempErr = none) (htw : env.writeTempErr = none)
    (hwl : env.writeLiveErr = none)
    (hre : env.reloadErr = some (e, o)) :
    (updateConfiguration n cfg env).err = some (e ++ "\n" ++ o) ∧
    (fullReconfiguration n cfg env).state.liveConfig = content ∧
    (fullReconfiguration n cfg env).state.templateConfig = n.templateConfig ∧
    (fullReconfiguration n cfg env).panicked = false ∧
    Action.incReloadErrorCount ∈ (fullReconfiguration n cfg env).trace ∧
    Action.eventMessage "Warning" "RELOAD"
        ("Error reloading NGINX: " ++ (e ++ "\n" ++ o)) ∈
      (fullReconfiguration n cfg env).trace := by
  have hup := updateConfiguration_reload_fail n cfg env content e o
    ho hr ht htc htw hwl hre
  obtain ⟨acts1, hbody, hpre1, _, _⟩ :=
    body_reaches_afterCert n cfg env t h1 h2 hcert
  obtain ⟨acts2, hacts2, hafter⟩ :=
    afterCert_reaches_reload n cfg env t acts1 hdh
  have hrs := reloadStage_update_fail n cfg env t acts2 (e ++ "\n" ++ o)
    { n with liveConfig := content }
    (Action.createOpentracingCfg ::
      ((debugDiffTrace n content env).snd ++
        [Action.writeLiveConfig content, Action.execReload]))
    hrel hup
  have hfull : fullReconfigurationBody n cfg env =
      { state := { n with liveConfig := content }
        trace := acts2 ++
          (Action.createOpentracingCfg ::
            ((debugDiffTrace n content env).snd ++
              [Action.writeLiveConfig content, Action.execReload])) ++
          [.incReloadErrorCount, .configSuccess env.hashVal false,
           .eventMessage "Warning" "RELOAD"
             ("Error reloading NGINX: " ++ (e ++ "\n" ++ o))]
        panicked := false } := by
    rw [hbody, hafter, hrs]
  refine ⟨by rw [hup], ?_, ?_, ?_, ?_, ?_⟩
  · show (fullReconfigurationBody n cfg env).state.liveConfig = content
    rw [hfull]
  · show (fullReconfigurationBody n cfg env).state.templateConfig =
      n.templateConfig
    rw [hfull]
  · show (fullReconfigurationBody n cfg env).panicked = false
    rw [hfull]
  · refine (mem_fullReconfiguration_trace n cfg env _).mpr (Or.inr (Or.inl ?_))
    rw [hfull]
    simp
  · refine (mem_fullReconfiguration_trace n cfg env _).mpr (Or.inr (Or.inl ?_))
    rw [hfull]
    simp

/-- Witness for `reload_failure_surfaced` at a concrete input. -/
theorem reload_failure_surfaced_witness :
    (updateConfiguration baseState freshNewCk reloadFailEnv).err =
      some ("exit status 1" ++ "\n" ++ "nginx: [emerg] oops") ∧
    (fullReconfiguration baseState freshNewCk reloadFailEnv).state.liveConfig =
      "rendered-config" ∧
    (fullReconfiguration baseState freshNewCk reloadFailEnv).state.templateConfig =
      baseState.templateConfig ∧
    (fullReconfiguration baseState freshNewCk reloadFailEnv).panicked = false ∧
    Action.incReloadErrorCount ∈
      (fullReconfiguration baseState freshNewCk reloadFailEnv).trace ∧
    Action.eventMessage "Warning" "RELOAD"
        ("Error reloading NGINX: " ++
          ("exit status 1" ++ "\n" ++ "nginx: [emerg] oops")) ∈
      (fullReconfiguration baseState freshNewCk reloadFailEnv).trace :=
  reload_failure_surfaced baseState freshNewCk reloadFailEnv baseTemplate
    "rendered-config" "exit status 1" "nginx: [emerg] oops"
    rfl (by decide) (Or.inl (by decide)) (Or.inl rfl) rfl rfl rfl rfl rfl rfl
    rfl rfl


/-- One unfolding step of `wait.ExponentialBackoff`. -/
theorem exponentialBackoff_succ {σ : Type} (steps : Nat)
    (cond : σ → (Bool × Option String) × σ) (s : σ) :
    exponentialBackoff (steps + 1) cond s =
      (let r := cond s
       if r.fst.fst || (r.fst.snd).isSome then (r.fst.snd, r.snd)
       else exponentialBackoff steps cond r.snd) := rfl

/-- Exhausted retries: with every attempt failing, the loop makes exactly
`s` attempts starting at attempt `k` and returns the last observed error. -/
theorem exponentialBackoff_push_all_fail (env : Env) :
    ∀ (s k : Nat), 0 < s →
      (∀ j, j < s → (env.pushErr (k + j)).isSome = true) →
      exponentialBackoff s (pushCondition env) (s, k) =
        (env.pushErr (k + s - 1), (0, k + s)) := by
  intro s
  induction s with
  | zero => intro k h _; exact absurd h (by simp)
  | succ m ih =>
    intro k _ hfail
    obtain ⟨e, he⟩ := Option.isSome_iff_exists.mp
      (by simpa using hfail 0 (Nat.succ_pos m))
    cases m with
    | zero =>
      have hcond : pushCondition env (0 + 1, k) =
          ((false, some e), (0, k + 1)) := by
        simp [pushCondition, he]
      rw [exponentialBackoff_succ, hcond]
      show ((some e : Option String), (0, k + 1)) =
        (env.pushErr (k + (0 + 1) - 1), (0, k + (0 + 1)))
      rw [show k + (0 + 1) - 1 = k from by omega, he]
    | succ m' =>
      have hcond : pushCondition env (m' + 1 + 1, k) =
          ((false, none), (m' + 1, k + 1)) := by
        simp [pushCondition, he]
      rw [exponentialBackoff_succ, hcond]
      show exponentialBackoff (m' + 1) (pushCondition env) (m' + 1, k + 1) =
        (env.pushErr (k + (m' + 1 + 1) - 1), (0, k + (m' + 1 + 1)))
      rw [ih (k + 1) (Nat.succ_pos m') (fun j hj => by
        have h' := hfail (j + 1) (by omega)
        rw [show k + 1 + j = k + (j + 1) from by omega]
        exact h')]
      have e1 : k + 1 + (m' + 1) - 1 = k + (m' + 1 + 1) - 1 := by omega
      have e2 : k + 1 + (m' + 1) = k + (m' + 1 + 1) := by omega
      rw [e1, e2]

/-- First accepting attempt: if attempt `k+j` succeeds and all earlier ones
fail, the loop stops right after attempt `k+j`. -/
theorem exponentialBackoff_push_first_success (env : Env) :
    ∀ (s k j : Nat), j < s → env.pushErr (k + j) = none →
      (∀ i, i < j → (env.pushErr (k + i)).isSome = true) →
      exponentialBackoff s (pushCondition env) (s, k) =
        (none, (s - j, k + j + 1)) := by
  intro s
  induction s with
  | zero => intro k j hj _ _; exact absurd hj (by omega)
  | succ m ih =>
    intro k j hj hnone hfail
    cases j with
    | zero =>
      have he : env.pushErr k = none := by simpa using hnone
      have hcond : pushCondition env (m + 1, k) =
          ((true, none), (m + 1, k + 1)) := by
        simp [pushCondition, he]
      rw [exponentialBackoff_succ, hcond]
      show ((none : Option String), (m + 1, k + 1)) =
        (none, (m + 1 - 0, k + 0 + 1))
      norm_num
    | succ j' =>
      obtain ⟨e, he⟩ := Option.isSome_iff_exists.mp
        (by simpa using hfail 0 (Nat.succ_pos j'))
      have hm : 0 < m := by omega
      have hcond : pushCondition env (m + 1, k) =
          ((false, none), (m, k + 1)) := by
        simp [pushCondition, he, hm]
      rw [exponentialBackoff_succ, hcond]
      show exponentialBackoff m (pushCondition env) (m, k + 1) =
        (none, (m + 1 - (j' + 1), k + (j' + 1) + 1))
      rw [ih (k + 1) j' (by omega)
        (by rw [show k + 1 + j' = k + (j' + 1) from by omega]; exact hnone)
        (fun i hi => by
          have h' := hfail (i + 1) (by omega)
          rw [show k + 1 + i = k + (i + 1) from by omega]
          exact h')]
      have e1 : m - j' = m + 1 - (j' + 1) := by omega
      have e2 : k + 1 + j' + 1 = k + (j' + 1) + 1 := by omega
      rw [e1, e2]

/-- The loop never makes more attempts than its step budget. -/
theorem exponentialBackoff_push_attempts_le (env : Env) :
    ∀ (s k rr : Nat),
      (exponentialBackoff s (pushCondition env) (rr, k)).snd.snd ≤ k + s := by
  intro s
  induction s with
  | zero =>
    intro k rr
    simp [exponentialBackoff]
  | succ m ih =>
    intro k rr
    rw [exponentialBackoff_succ]
    cases he : env.pushErr k with
    | none =>
      have hcond : pushCondition env (rr, k) = ((true, none), (rr, k + 1)) := by
        simp [pushCondition, he]
      rw [hcond]
      show (k + 1 : Nat) ≤ k + (m + 1)
      omega
    | some e =>
      by_cases hrr : 0 < rr - 1
      · have hcond : pushCondition env (rr, k) =
            ((false, none), (rr - 1, k + 1)) := by
          simp [pushCondition, he, hrr]
        rw [hcond]
        show (exponentialBackoff m (pushCondition env) (rr - 1, k + 1)).snd.snd ≤
          k + (m + 1)
        exact le_trans (ih (k + 1) (rr - 1)) (by omega)
      · have hcond : pushCondition env (rr, k) =
            ((false, some e), (rr - 1, k + 1)) := by
          simp [pushCondition, he, hrr]
        rw [hcond]
        show (k + 1 : Nat) ≤ k + (m + 1)
        omega

/-- All attempts fail: the dynamic-push loop makes `retries + 1` attempts
and returns the last error. -/
theorem dynamicPushLoop_all_fail (retries : Nat) (env : Env)
    (hfail : ∀ j, j ≤ retries → (env.pushErr j).isSome = true) :
    dynamicPushLoop retries env = (env.pushErr retries, retries + 1) := by
  have h := exponentialBackoff_push_all_fail env (1 + retries) 0 (by omega)
    (fun j hj => by simpa using hfail j (by omega))
  unfold dynamicPushLoop mkRetryBackoff
  simp only [h]
  have e1 : 0 + (1 + retries) - 1 = retries := by omega
  have e2 : 0 + (1 + retries) = retries + 1 := by omega
  rw [e1, e2]

/-- First accepting attempt: the loop returns success having made exactly
`j + 1` attempts. -/
theorem dynamicPushLoop_first_success (retries j : Nat) (env : Env)
    (hj : j ≤ retries) (hnone : env.pushErr j = none)
    (hfail : ∀ i, i < j → (env.pushErr i).isSome = true) :
    dynamicPushLoop retries env = (none, j + 1) := by
  have h := exponentialBackoff_push_first_success env (1 + retries) 0 j
    (by omega) (by simpa using hnone) (fun i hi => by simpa using hfail i hi)
  unfold dynamicPushLoop mkRetryBackoff
  simp only [h]
  norm_num

/-- The dynamic-push loop makes at most `retries + 1` attempts. -/
theorem dynamicPushLoop_attempts_le (retries : Nat) (env : Env) :
    (dynamicPushLoop retries env).snd ≤ retries + 1 := by
  have h := exponentialBackoff_push_attempts_le env (1 + retries) 0 (1 + retries)
  unfold dynamicPushLoop mkRetryBackoff
  exact le_trans h (by omega)

/-- C6: the dynamic push is attempted at most
`DynamicConfigurationRetries + 1` times, with exponential backoff starting
at 1 time unit, factor 1.3 and jitter 0.1; the loop returns success at the
first accepting attempt, and when every attempt fails the error returned is
the last observed one. -/
theorem dynamic_push_retry_contract (retries : Nat) (env : Env) :
    (mkRetryBackoff retries).Steps = retries + 1 ∧
    (mkRetryBackoff retries).Duration = 1 ∧
    (mkRetryBackoff retries).Factor = 13 / 10 ∧
    (mkRetryBackoff retries).Jitter = 1 / 10 ∧
    (dynamicPushLoop retries env).snd ≤ retries + 1 ∧
    (∀ j, j ≤ retries → env.pushErr j = none →
      (∀ i, i < j → (env.pushErr i).isSome = true) →
      dynamicPushLoop retries env = (none, j + 1)) ∧
    ((∀ j, j ≤ retries → (env.pushErr j).isSome = true) →
      dynamicPushLoop retries env = (env.pushErr retries, retries + 1)) :=
  ⟨by simp [mkRetryBackoff, Nat.add_comm], rfl, rfl, rfl,
    dynamicPushLoop_attempts_le retries env,
    fun j hj hn hf => dynamicPushLoop_first_success retries j env hj hn hf,
    fun hf => dynamicPushLoop_all_fail retries env hf⟩

/-- Witness for `dynamic_push_retry_contract`: with 2 configured retries and
every push refused, exactly 3 attempts happen and the last error surfaces;
with an accepting control surface a single attempt happens. -/
theorem dynamic_push_retry_contract_witness :
    dynamicPushLoop 2 pushFailEnv = (pushFailEnv.pushErr 2, 3) ∧
    dynamicPushLoop 2 benignEnv = (none, 1) ∧
    (mkRetryBackoff 2).Steps = 3 := by
  refine ⟨(dynamic_push_retry_contract 2 pushFailEnv).2.2.2.2.2.2
      (fun j _ => rfl), ?_, (dynamic_push_retry_contract 2 benignEnv).1⟩
  have h := (dynamic_push_retry_contract 2 benignEnv).2.2.2.2.2.1 0 (by omega)
    rfl (fun i hi => absurd hi (by omega))
  simpa using h

/-- Reload branch with a successful `updateConfiguration`: the reload stage
reports success and hands over to the dynamic stage from the new state. -/
theorem reloadStage_update_ok (n : ConfigurerState) (cfg : TemplateConfig)
    (env : Env) (stored : TemplateConfig) (acts : List Action)
    (st : ConfigurerState) (tr : List Action)
    (hc : stored.Cfg.Checksum ≠ cfg.Cfg.Checksum ∨ env.isDynamicEnough = false)
    (hu : updateConfiguration n cfg env = { err := none, state := st, trace := tr }) :
    reloadStage n cfg env stored acts =
      dynamicStage st cfg env stored
        (acts ++ tr ++
          [.configSuccess env.hashVal true, .incReloadCount,
           .eventMessage "Normal" "RELOAD"
             "NGINX reload triggered due to a change in configuration"]) := by
  unfold reloadStage
  rw [if_pos hc, hu]

/-- Exact behaviour of the dynamic stage when the push loop fails: the state
is returned unchanged (no last-applied update), no removed-metrics cleanup
happens, and an Error RELOAD event carrying the push error is emitted. -/
theorem dynamicStage_push_fail (n : ConfigurerState) (cfg : TemplateConfig)
    (env : Env) (stored : TemplateConfig) (acts : List Action)
    (e : String) (attempts : Nat)
    (hl : dynamicPushLoop n.dynamicConfigurationRetries env = (some e, attempts)) :
    (dynamicStage n cfg env stored acts).state = n ∧
    ∃ extra, (dynamicStage n cfg env stored acts).trace = acts ++ extra ∧
      Action.removeMetrics ∉ extra ∧
      Action.eventMessage "Error" "RELOAD"
        ("Unexpected failure reconfiguring NGINX:\n" ++ e) ∈ extra := by
  unfold dynamicStage
  rw [hl]
  by_cases hfs : configFromTemplate (some stored) = emptyConfiguration
  · rw [if_pos hfs]
    refine ⟨rfl, [Action.sleep] ++
      (List.range attempts).map Action.configureDynamically ++
      [.eventMessage "Error" "RELOAD"
        ("Unexpected failure reconfiguring NGINX:\n" ++ e)],
      by simp, ?_, by simp⟩
    intro hmem
    rcases List.mem_append.mp hmem with h | h
    · rcases List.mem_append.mp h with h' | h'
      · simp at h'
      · obtain ⟨k, _, hk⟩ := List.mem_map.mp h'
        simp at hk
    · simp at h
  · rw [if_neg hfs]
    refine ⟨rfl,
      (List.range attempts).map Action.configureDynamically ++
      [.eventMessage "Error" "RELOAD"
        ("Unexpected failure reconfiguring NGINX:\n" ++ e)],
      by simp, ?_, by simp⟩
    intro hmem
    rcases List.mem_append.mp hmem with h | h
    · obtain ⟨k, _, hk⟩ := List.mem_map.mp h
      simp at hk
    · simp at h

/-- C3 (amended): when every dynamic-push attempt fails after a successful
static reload, the reconciliation is not reverted — the live artifact keeps
the newly written content — but the snapshot is NOT recorded as
last-applied: the stored reference is unchanged, no removed-metrics cleanup
happens, and an Error RELOAD event reporting the last push error is
emitted. -/
theorem dynamic_push_failure_not_reverted (n : ConfigurerState)
    (cfg : TemplateConfig) (env : Env) (t : TemplateConfig) (content : String)
    (h1 : n.templateConfig = some t)
    (h2 : t.GeneratedTime < cfg.GeneratedTime)
    (hrel : t.Cfg.Checksum ≠ cfg.Cfg.Checksum ∨ env.isDynamicEnough = false)
    (hcert : defaultCertNeedsWrite t cfg = false ∨ env.storeSSLCertErr = none)
    (hdh : env.dhParamErr = none)
    (ho : env.opentracingErr = none)
    (hr : env.renderResult = Except.ok content)
    (ht : env.testTemplateOf content = none)
    (htc : env.createTempErr = none) (htw : env.writeTempErr = none)
    (hwl : env.writeLiveErr = none) (hre : env.reloadErr = none)
    (hpush : ∀ j, j ≤ n.dynamicConfigurationRetries →
      (env.pushErr j).isSome = true) :
    (fullReconfiguration n cfg env).state.liveConfig = content ∧
    (fullReconfiguration n cfg env).state.templateConfig = n.templateConfig ∧
    Action.removeMetrics ∉ (fullReconfiguration n cfg env).trace ∧
    (∃ e, env.pushErr n.dynamicConfigurationRetries = some e ∧
      Action.eventMessage "Error" "RELOAD"
        ("Unexpected failure reconfiguring NGINX:\n" ++ e) ∈
        (fullReconfiguration n cfg env).trace) := by
  obtain ⟨e, he⟩ := Option.isSome_iff_exists.mp
    (hpush n.dynamicConfigurationRetries (le_refl _))
  have hloop : dynamicPushLoop n.dynamicConfigurationRetries env =
      (some e, n.dynamicConfigurationRetries + 1) := by
    rw [dynamicPushLoop_all_fail n.dynamicConfigurationRetries env hpush, he]
  have hup := updateConfiguration_ok n cfg env content ho hr ht htc htw hwl hre
  obtain ⟨acts1, hbody, hpre1, _, _⟩ :=
    body_reaches_afterCert n cfg env t h1 h2 hcert
  obtain ⟨acts2, hacts2, hafter⟩ :=
    afterCert_reaches_reload n cfg env t acts1 hdh
  have hpre2 : ∀ a ∈ acts2, preAction a = true := by
    rcases hacts2 with rfl | rfl
    · exact hpre1
    · intro a ha
      rcases List.mem_append.mp ha with h | h
      · exact hpre1 a h
      · simp only [List.mem_singleton] at h
        subst h
        rfl
  have hrs := reloadStage_update_ok n cfg env t acts2
    { n with liveConfig := content }
    (Action.createOpentracingCfg ::
      ((debugDiffTrace n content env).snd ++
        [Action.writeLiveConfig content, Action.execReload]))
    hrel hup
  obtain ⟨hstate, extra, hext, hnometrics, hevent⟩ :=
    dynamicStage_push_fail { n with liveConfig := content } cfg env t
      (acts2 ++
        (Action.createOpentracingCfg ::
          ((debugDiffTrace n content env).snd ++
            [Action.writeLiveConfig content, Action.execReload])) ++
        [.configSuccess env.hashVal true, .incReloadCount,
         .eventMessage "Normal" "RELOAD"
           "NGINX reload triggered due to a change in configuration"])
      e (n.dynamicConfigurationRetries + 1) hloop
  have hfull : fullReconfigurationBody n cfg env =
      dynamicStage { n with liveConfig := content } cfg env t
        (acts2 ++
          (Action.createOpentracingCfg ::
            ((debugDiffTrace n content env).snd ++
              [Action.writeLiveConfig content, Action.execReload])) ++
          [.configSuccess env.hashVal true, .incReloadCount,
           .eventMessage "Normal" "RELOAD"
             "NGINX reload triggered due to a change in configuration"]) := by
    rw [hbody, hafter, hrs]
  refine ⟨?_, ?_, ?_, e, he, ?_⟩
  · show (fullReconfigurationBody n cfg env).state.liveConfig = content
    rw [hfull, hstate]
  · show (fullReconfigurationBody n cfg env).state.templateConfig =
      n.templateConfig
    rw [hfull, hstate]
  · intro hmem
    rcases (mem_fullReconfiguration_trace n cfg env _).mp hmem with h | h | h
    · simp at h
    · rw [hfull, hext] at h
      rcases List.mem_append.mp h with h' | h'
      · rcases List.mem_append.mp h' with h'' | h''
        · rcases List.mem_append.mp h'' with h3 | h3
          · simpa [preAction] using hpre2 _ h3
          · rcases List.mem_cons.mp h3 with h4 | h4
            · simp at h4
            · rcases List.mem_append.mp h4 with h5 | h5
              · have := debugDiffTrace_spec n content env _ h5
                simp [updAction] at this
              · simp at h5
        · simp at h''
      · exact hnometrics h'
    · simp at h
  · refine (mem_fullReconfiguration_trace n cfg env _).mpr (Or.inr (Or.inl ?_))
    rw [hfull, hext]
    exact List.mem_append.mpr (Or.inr hevent)

/-- Witness for `dynamic_push_failure_not_reverted` at a concrete input. -/
theorem dynamic_push_failure_not_reverted_witness :
    (fullReconfiguration baseState freshNewCk pushFailEnv).state.liveConfig =
      "rendered-config" ∧
    (fullReconfiguration baseState freshNewCk pushFailEnv).state.templateConfig =
      baseState.templateConfig ∧
    Action.removeMetrics ∉
      (fullReconfiguration baseState freshNewCk pushFailEnv).trace ∧
    (∃ e, pushFailEnv.pushErr baseState.dynamicConfigurationRetries = some e ∧
      Action.eventMessage "Error" "RELOAD"
        ("Unexpected failure reconfiguring NGINX:\n" ++ e) ∈
        (fullReconfiguration baseState freshNewCk pushFailEnv).trace) :=
  dynamic_push_failure_not_reverted baseState freshNewCk pushFailEnv
    baseTemplate "rendered-config" rfl (by decide) (Or.inl (by decide))
    (Or.inl rfl) rfl rfl rfl rfl rfl rfl rfl rfl (fun j _ => rfl)

/-- C3 counterexample: with every push attempt refused, the static reload is
applied (the artifact is written and the reload command runs) yet the new
snapshot is NOT recorded as last-applied — the stored reference still holds
the old snapshot — contradicting the claim that it is still recorded. -/
theorem push_fail_last_applied_not_recorded :
    (∀ k, (pushFailEnv.pushErr k).isSome = true) ∧
    Action.writeLiveConfig "rendered-config" ∈
      (fullReconfiguration baseState freshNewCk pushFailEnv).trace ∧
    Action.execReload ∈
      (fullReconfiguration baseState freshNewCk pushFailEnv).trace ∧
    (fullReconfiguration baseState freshNewCk pushFailEnv).state.templateConfig =
      some baseTemplate ∧
    some baseTemplate ≠ some freshNewCk := by
  refine ⟨fun k => rfl, ?_, ?_, ?_, by decide⟩
  · decide
  · decide
  · decide


/-- C2 (amended): a snapshot whose generation is not strictly greater than
the stored one is rejected: the state is unchanged and the trace shows
exactly the lock pair and the two SSL metrics calls — in particular no file
write, no reload signal, no dynamic push, and no collaborator call other
than the two TLS metrics updates that precede the staleness check. -/
theorem stale_snapshot_rejected (n : ConfigurerState) (cfg t : TemplateConfig)
    (env : Env) (h1 : n.templateConfig = some t)
    (h2 : cfg.GeneratedTime ≤ t.GeneratedTime) :
    fullReconfiguration n cfg env =
      { state := n
        trace := [.lockAcquire, .setSSLExpireTime, .setSSLInfo, .lockRelease]
        panicked := false } := by
  unfold fullReconfiguration fullReconfigurationBody
  rw [h1]
  simp [h2]

/-- Witness for `stale_snapshot_rejected` at a concrete input. -/
theorem stale_snapshot_rejected_witness :
    fullReconfiguration baseState staleSnapshot benignEnv =
      { state := baseState
        trace := [.lockAcquire, .setSSLExpireTime, .setSSLInfo, .lockRelease]
        panicked := false } :=
  stale_snapshot_rejected baseState staleSnapshot baseTemplate benignEnv rfl
    (by decide)

/-- C2 counterexample: on a stale snapshot (generation equal to the stored
one) the claim "no observable call is made to any collaborator (metrics,
events, certificate storage)" fails — the metrics collaborator receives the
`SetSSLExpireTime` call, which the source places before the staleness
check. -/
theorem stale_snapshot_metrics_called :
    staleSnapshot.GeneratedTime ≤ baseTemplate.GeneratedTime ∧
    baseState.templateConfig = some baseTemplate ∧
    Action.setSSLExpireTime ∈
      (fullReconfiguration baseState staleSnapshot benignEnv).trace := by
  refine ⟨by decide, rfl, ?_⟩
  decide

/-- C10 (amended): with a nil stored template reference every call faults at
the staleness check — after the two SSL metrics calls but before any further
behaviour: no file write, no reload, no push, state unchanged.  The second
conjunct records that `configFromTemplate` itself treats a nil reference as
the empty configuration, so only the staleness check has the non-nil
precondition. -/
theorem nil_template_reference_panics (n : ConfigurerState)
    (cfg : TemplateConfig) (env : Env) (h : n.templateConfig = none) :
    fullReconfiguration n cfg env =
      { state := n
        trace := [.lockAcquire, .setSSLExpireTime, .setSSLInfo, .lockRelease]
        panicked := true } ∧
    configFromTemplate none = emptyConfiguration := by
  constructor
  · unfold fullReconfiguration fullReconfigurationBody
    rw [h]
    rfl
  · rfl

/-- Witness for `nil_template_reference_panics` at a concrete input. -/
theorem nil_template_reference_panics_witness :
    fullReconfiguration nilState freshSameCk benignEnv =
      { state := nilState
        trace := [.lockAcquire, .setSSLExpireTime, .setSSLInfo, .lockRelease]
        panicked := true } ∧
    configFromTemplate none = emptyConfiguration :=
  nil_template_reference_panics nilState freshSameCk benignEnv rfl

/-- C10 counterexample: the faulting call performs the two SSL metrics
collaborator calls before it faults, so the fault does not come "before any
other behaviour". -/
theorem nil_template_metrics_precede_fault :
    nilState.templateConfig = none ∧
    (fullReconfiguration nilState freshSameCk benignEnv).panicked = true ∧
    Action.setSSLExpireTime ∈
      (fullReconfiguration nilState freshSameCk benignEnv).trace := by
  refine ⟨rfl, rfl, ?_⟩
  decide

/-- Helper: `setProg` at the updated caller. -/
theorem setProg_same (p : Bool → List Action) (i : Bool) (l : List Action) :
    setProg p i l i = l := by
  simp [setProg]

/-- Helper: `setProg` at the other caller. -/
theorem setProg_other (p : Bool → List Action) (i : Bool) (l : List Action)
    (j : Bool) (h : j ≠ i) :
    setProg p i l j = p j := by
  simp [setProg, h]

/-- Any action classified into a stage class is not a lock action. -/
theorem not_lock_of_classified (a : Action)
    (h : preAction a = true ∨ updAction a = true ∨ reportAction a = true ∨
      dynAction a = true ∨ (∃ p, a = Action.writeDHParam p)) :
    a ≠ Action.lockAcquire ∧ a ≠ Action.lockRelease := by
  rcases h with h | h | h | h | ⟨p, rfl⟩
  · cases a <;> simp_all [preAction]
  · cases a <;> simp_all [updAction]
  · cases a <;> simp_all [reportAction]
  · cases a <;> simp_all [dynAction]
  · simp

/-- The body between `Lock` and `Unlock` never touches the lock itself. -/
theorem fullReconfigurationBody_lockFree (n : ConfigurerState)
    (cfg : TemplateConfig) (env : Env) :
    lockFree (fullReconfigurationBody n cfg env).trace := by
  intro a ha
  cases hT : n.templateConfig with
  | none =>
    have hbody : fullReconfigurationBody n cfg env =
        { state := n, trace := [.setSSLExpireTime, .setSSLInfo]
          panicked := true } := by
      unfold fullReconfigurationBody
      rw [hT]
    rw [hbody] at ha
    fin_cases ha <;> exact ⟨by simp, by simp⟩
  | some t =>
    by_cases hst : t.GeneratedTime ≥ cfg.GeneratedTime
    · have hbody : fullReconfigurationBody n cfg env =
          { state := n, trace := [.setSSLExpireTime, .setSSLInfo]
            panicked := false } := by
        unfold fullReconfigurationBody
        simp only [hT]
        rw [if_pos hst]
      rw [hbody] at ha
      fin_cases ha <;> exact ⟨by simp, by simp⟩
    · rcases fullReconfigurationBody_cases n cfg env t hT (lt_of_not_ge hst) with
        ⟨acts1, hpre, heq⟩ | ⟨acts1, hpre, heq⟩
      · rw [heq] at ha
        exact not_lock_of_classified a (Or.inl (hpre a ha))
      · rw [heq] at ha
        obtain ⟨_, _, extra, hext, hmem⟩ := afterCertStage_spec n cfg env t acts1
        rw [hext] at ha
        rcases List.mem_append.mp ha with h | h
        · exact not_lock_of_classified a (Or.inl (hpre a h))
        · rcases hmem a h with ⟨p, hp⟩ | h' | h' | h'
          · exact not_lock_of_classified a
              (Or.inr (Or.inr (Or.inr (Or.inr ⟨p, hp⟩))))
          · exact not_lock_of_classified a (Or.inr (Or.inl h'))
          · exact not_lock_of_classified a (Or.inr (Or.inr (Or.inl h')))
          · exact not_lock_of_classified a (Or.inr (Or.inr (Or.inr (Or.inl h'))))

/-- Every `fullReconfiguration` trace acquires the lock first, releases it
last, and touches it nowhere else. -/
theorem fullReconfiguration_notStarted (n : ConfigurerState)
    (cfg : TemplateConfig) (env : Env) :
    notStarted (fullReconfiguration n cfg env).trace :=
  ⟨(fullReconfigurationBody n cfg env).trace, rfl,
    fullReconfigurationBody_lockFree n cfg env⟩

/-- While a caller holds the lock with a lock-free remainder and the other
caller is still before its acquire (or done), only the holder can step: the
execution begins with the holder's complete remainder. -/
theorem exec_in_crit (i : Bool) :
    ∀ (mid : List Action) (s : LockSys) (evs : List (Bool × Action))
      (sF : LockSys),
      Exec s evs sF →
      s.holder = some i →
      s.prog i = mid ++ [Action.lockRelease] →
      lockFree mid →
      (∀ j, j ≠ i → s.prog j = [] ∨
        ∃ rest, s.prog j = Action.lockAcquire :: rest) →
      (∀ j, sF.prog j = []) →
      ∃ evs', evs = tagged i (mid ++ [Action.lockRelease]) ++ evs' ∧
        Exec { holder := none, prog := setProg s.prog i [] } evs' sF := by
  intro mid
  induction mid with
  | nil =>
    intro s evs sF hrun hh hpi hlf hother hdone
    cases hrun with
    | nil =>
      have h0 := hdone i
      rw [hpi] at h0
      simp at h0
    | cons hstep hrest =>
      rename_i s' ev evs₁
      cases hstep with
      | acquire j rest hp hh2 =>
        rw [hh] at hh2
        cases hh2
      | plain j b rest hp hb hr =>
        by_cases hji : j = i
        · subst hji
          rw [hpi] at hp
          simp only [List.nil_append] at hp
          injection hp with h1 h2
          exact absurd h1.symm hr
        · rcases hother j hji with h0 | ⟨rest', hrest'⟩
          · rw [h0] at hp
            simp at hp
          · rw [hrest'] at hp
            injection hp with h1 h2
            exact absurd h1.symm hb
      | release j rest hp hh2 =>
        have hji : j = i := by
          rw [hh] at hh2
          exact (Option.some.inj hh2).symm
        subst hji
        rw [hpi] at hp
        simp only [List.nil_append] at hp
        injection hp with h1 h2
        subst h2
        exact ⟨evs₁, by simp [tagged], hrest⟩
  | cons a mid' ihm =>
    intro s evs sF hrun hh hpi hlf hother hdone
    have ha := hlf a (by simp)
    cases hrun with
    | nil =>
      have h0 := hdone i
      rw [hpi] at h0
      simp at h0
    | cons hstep hrest =>
      rename_i s' ev evs₁
      cases hstep with
      | acquire j rest hp hh2 =>
        rw [hh] at hh2
        cases hh2
      | release j rest hp hh2 =>
        have hji : j = i := by
          rw [hh] at hh2
          exact (Option.some.inj hh2).symm
        subst hji
        rw [hpi] at hp
        simp only [List.cons_append] at hp
        injection hp with h1 h2
        exact absurd h1 ha.2
      | plain j b rest hp hb hr =>
        by_cases hji : j = i
        · subst hji
          rw [hpi] at hp
          simp only [List.cons_append] at hp
          injection hp with h1 h2
          subst h1
          subst h2
          obtain ⟨evs', heqq, hex⟩ := ihm
            ⟨s.holder, setProg s.prog j (mid' ++ [Action.lockRelease])⟩
            evs₁ sF hrest hh (setProg_same _ _ _)
            (fun x hx => hlf x (by simp [hx]))
            (fun k hk => by
              show setProg s.prog j (mid' ++ [Action.lockRelease]) k = [] ∨
                ∃ rest, setProg s.prog j (mid' ++ [Action.lockRelease]) k =
                  Action.lockAcquire :: rest
              rw [setProg_other s.prog j (mid' ++ [Action.lockRelease]) k hk]
              exact hother k hk)
            hdone
          refine ⟨evs', ?_, ?_⟩
          · rw [heqq]
            simp [tagged]
          · have hsp : setProg (setProg s.prog j (mid' ++ [Action.lockRelease]))
                j [] = setProg s.prog j [] := by
              funext k
              by_cases hk : k = j <;> simp [setProg, hk]
            rw [hsp] at hex
            exact hex
        · rcases hother j hji with h0 | ⟨rest', hrest'⟩
          · rw [h0] at hp
            simp at hp
          · rw [hrest'] at hp
            injection hp with h1 h2
            exact absurd h1.symm hb

/-- From a free lock with both callers not yet started (or already done), a
complete execution is one caller's full trace followed by the other's. -/
theorem exec_from_free :
    ∀ (N : Nat) (evs : List (Bool × Action)), evs.length ≤ N →
      ∀ (s sF : LockSys), Exec s evs sF → s.holder = none →
      (∀ i, notStarted (s.prog i) ∨ s.prog i = []) →
      (∀ i, sF.prog i = []) →
      evs = tagged false (s.prog false) ++ tagged true (s.prog true) ∨
      evs = tagged true (s.prog true) ++ tagged false (s.prog false) := by
  intro N
  induction N with
  | zero =>
    intro evs hlen s sF hrun hh hns hdone
    have hnil : evs = [] := List.length_eq_zero.mp (Nat.le_zero.mp hlen)
    subst hnil
    cases hrun
    left
    rw [hdone false, hdone true]
    simp [tagged]
  | succ N ihN =>
    intro evs hlen s sF hrun hh hns hdone
    cases hrun with
    | nil =>
      left
      rw [hdone false, hdone true]
      simp [tagged]
    | cons hstep hrest =>
      rename_i s' ev evs₁
      cases hstep with
      | release j rest hp hh2 =>
        rw [hh] at hh2
        cases hh2
      | plain j b rest hp hb hr =>
        rcases hns j with ⟨mid, hmid, hlf⟩ | h0
        · rw [hmid] at hp
          injection hp with h1 h2
          exact absurd h1.symm hb
        · rw [h0] at hp
          simp at hp
      | acquire j rest hp hh2 =>
        rcases hns j with ⟨mid, hmid, hlf⟩ | h0
        swap
        · rw [h0] at hp
          simp at hp
        rw [hmid] at hp
        injection hp with h1 h2
        subst h2
        obtain ⟨evs', heqq, hex⟩ := exec_in_crit j mid
          ⟨some j, setProg s.prog j (mid ++ [Action.lockRelease])⟩
          evs₁ sF hrest rfl (setProg_same _ _ _) hlf
          (fun k hk => by
            show setProg s.prog j (mid ++ [Action.lockRelease]) k = [] ∨
              ∃ rest, setProg s.prog j (mid ++ [Action.lockRelease]) k =
                Action.lockAcquire :: rest
            rw [setProg_other s.prog j (mid ++ [Action.lockRelease]) k hk]
            rcases hns k with ⟨mid2, hmid2, _⟩ | hk0
            · exact Or.inr ⟨_, hmid2⟩
            · exact Or.inl hk0)
          hdone
        have hlen1 : evs₁.length ≤ N := by
          simp only [List.length_cons] at hlen
          omega
        have hlen' : evs'.length ≤ N := by
          have hc := congrArg List.length heqq
          simp [tagged] at hc
          omega
        have hsrec := ihN evs' hlen'
          ⟨none, setProg (setProg s.prog j (mid ++ [Action.lockRelease])) j []⟩
          sF hex rfl
          (fun k => by
            by_cases hk : k = j
            · subst hk
              right
              exact setProg_same _ _ _
            · show notStarted
                (setProg (setProg s.prog j (mid ++ [Action.lockRelease])) j [] k) ∨
                setProg (setProg s.prog j (mid ++ [Action.lockRelease])) j [] k = []
              rw [setProg_other _ _ _ _ hk, setProg_other _ _ _ _ hk]
              exact hns k)
          hdone
        cases j
        · left
          simp only [setProg, if_pos, if_neg, Bool.true_eq_false,
            Bool.false_eq_true, ite_true, ite_false, reduceIte] at hsrec
          have hE : evs' = tagged true (s.prog true) := by
            rcases hsrec with hE | hE
            · simpa [tagged] using hE
            · simpa [tagged] using hE
          rw [heqq, hE, hmid]
          simp [tagged]
        · right
          simp only [setProg, if_pos, if_neg, Bool.true_eq_false,
            Bool.false_eq_true, ite_true, ite_false, reduceIte] at hsrec
          have hE : evs' = tagged false (s.prog false) := by
            rcases hsrec with hE | hE
            · simpa [tagged] using hE
            · simpa [tagged] using hE
          rw [heqq, hE, hmid]
          simp [tagged]

/-- C9: reconciliations are serialized by the lock.  Two concurrent callers
each running `fullReconfiguration` (arbitrary states, snapshots and
environments) interleave only trivially: every complete admissible
execution is exactly one caller's full trace followed by the other's — in
particular their side effects never interleave.  Moreover each trace
acquires the lock before any side effect and releases it as its final
action on every exit path. -/
theorem reconciliation_serialized (n₀ n₁ : ConfigurerState)
    (c₀ c₁ : TemplateConfig) (e₀ e₁ : Env)
    (evs : List (Bool × Action)) (sF : LockSys)
    (hrun : Exec
      { holder := none
        prog := fun i => if i then (fullReconfiguration n₁ c₁ e₁).trace
          else (fullReconfiguration n₀ c₀ e₀).trace } evs sF)
    (hdone : ∀ i, sF.prog i = []) :
    (evs = tagged false (fullReconfiguration n₀ c₀ e₀).trace ++
        tagged true (fullReconfiguration n₁ c₁ e₁).trace ∨
      evs = tagged true (fullReconfiguration n₁ c₁ e₁).trace ++
        tagged false (fullReconfiguration n₀ c₀ e₀).trace) ∧
    notStarted (fullReconfiguration n₀ c₀ e₀).trace ∧
    notStarted (fullReconfiguration n₁ c₁ e₁).trace := by
  refine ⟨?_, fullReconfiguration_notStarted n₀ c₀ e₀,
    fullReconfiguration_notStarted n₁ c₁ e₁⟩
  have h := exec_from_free evs.length evs (le_refl _) _ sF hrun rfl
    (fun i => by
      cases i
      · exact Or.inl (fullReconfiguration_notStarted n₀ c₀ e₀)
      · exact Or.inl (fullReconfiguration_notStarted n₁ c₁ e₁))
    hdone
  simpa using h


/-- Witness for `reconciliation_serialized`: an explicit complete
interleaving of two sample callers, serialized as caller `false` then
caller `true`. -/
theorem reconciliation_serialized_witness :
    ((tagged false (fullReconfiguration baseState staleSnapshot benignEnv).trace ++
        tagged true (fullReconfiguration baseState staleSnapshot benignEnv).trace =
      tagged false (fullReconfiguration baseState staleSnapshot benignEnv).trace ++
        tagged true (fullReconfiguration baseState staleSnapshot benignEnv).trace ∨
      tagged false (fullReconfiguration baseState staleSnapshot benignEnv).trace ++
        tagged true (fullReconfiguration baseState staleSnapshot benignEnv).trace =
      tagged true (fullReconfiguration baseState staleSnapshot benignEnv).trace ++
        tagged false (fullReconfiguration baseState staleSnapshot benignEnv).trace) ∧
    notStarted (fullReconfiguration baseState staleSnapshot benignEnv).trace ∧
    notStarted (fullReconfiguration baseState staleSnapshot benignEnv).trace) := by
  have hrun : Exec
      { holder := none, prog := sampleProg }
      [(false, Action.lockAcquire), (false, Action.setSSLExpireTime),
       (false, Action.setSSLInfo), (false, Action.lockRelease),
       (true, Action.lockAcquire), (true, Action.setSSLExpireTime),
       (true, Action.setSSLInfo), (true, Action.lockRelease)]
      { holder := none, prog := sampleFinalProg } := by
    refine Exec.cons (LockStep.acquire _ false
      [Action.setSSLExpireTime, Action.setSSLInfo, Action.lockRelease]
      (by decide) rfl) ?_
    refine Exec.cons (LockStep.plain _ false Action.setSSLExpireTime
      [Action.setSSLInfo, Action.lockRelease]
      (by decide) (by decide) (by decide)) ?_
    refine Exec.cons (LockStep.plain _ false Action.setSSLInfo
      [Action.lockRelease] (by decide) (by decide) (by decide)) ?_
    refine Exec.cons (LockStep.release _ false [] (by decide) rfl) ?_
    refine Exec.cons (LockStep.acquire _ true
      [Action.setSSLExpireTime, Action.setSSLInfo, Action.lockRelease]
      (by decide) rfl) ?_
    refine Exec.cons (LockStep.plain _ true Action.setSSLExpireTime
      [Action.setSSLInfo, Action.lockRelease]
      (by decide) (by decide) (by decide)) ?_
    refine Exec.cons (LockStep.plain _ true Action.setSSLInfo
      [Action.lockRelease] (by decide) (by decide) (by decide)) ?_
    exact Exec.cons (LockStep.release _ true [] (by decide) rfl) Exec.nil
  have hdone : ∀ i,
      ({ holder := none, prog := sampleFinalProg } : LockSys).prog i = [] := by
    intro i
    cases i <;> rfl
  exact reconciliation_serialized baseState baseState staleSnapshot
    staleSnapshot benignEnv benignEnv _ _ hrun hdone

end IngressNginx
